import Mathlib

/-!
Verification development for the `Observables` class of `model_obs.py`
(ClusterModel repository).

The Python methods are shallowly embedded as Lean functions over `ℚ`
(floating-point numbers are modelled as exact rationals; NaN, which matters
only for the X-ray XSPEC channel, is modelled as `Option ℚ` with `none`
standing for NaN).  Methods run in a small deterministic monad `M` that
threads a trace of observable events (grid construction, rate evaluation,
EBL-absorption application, energy integration, projection, warnings) and
an `Except`-style error channel, so that the claims about *when* an error
is raised relative to the work performed become statements about the trace.

External collaborators (the physical-model profiles, the per-observable
rate functions, EBL absorption tables, scipy interpolation and Gaussian
filtering, the ClusterTools projection/integration helpers and the sky-map
tools) are abstracted as fields of a structure `Ext`: the source file only
calls them through their interfaces.  The in-repository helper module
`model_tools` is not part of the sources under verification; its functions
are modelled from the specification (see their doc comments).
-/

namespace ClusterModelObs

/-- Observable events recorded while an `Observables` method runs. -/
inductive Event
  /-- A sampling grid (radius or energy) was built with the given bounds. -/
  | gridBuilt (low high : ℚ)
  /-- A volumetric rate function was evaluated on a grid. -/
  | rateEvaluated
  /-- The differential rate was multiplied by an EBL absorption factor. -/
  | absorbApplied
  /-- An energy-band integration was performed. -/
  | energyIntegrated
  /-- A spherical volume integration was performed. -/
  | sphericalIntegrated
  /-- A cylindrical (projected-disk) integration was performed. -/
  | cylindricalIntegrated
  /-- A line-of-sight projection was performed. -/
  | losProjected
  /-- An advisory warning was printed. -/
  | warned
  deriving DecidableEq

/-- Errors raised by the embedded methods. -/
inductive Err
  /-- Python `ValueError` with its message. -/
  | valueError (msg : String)
  /-- Python `AttributeError`: the named attribute does not exist. -/
  | attributeError (name : String)
  /-- Domain error of the grid builder (spec 4.1). -/
  | domainError
  deriving DecidableEq

abbrev Trace := List Event

/-- Result of running a method: the value-or-error, plus the event trace. -/
structure MRes (α : Type) where
  res : Except Err α
  trace : Trace

/-- The embedding monad: deterministic state-passing of the event trace with
an error channel that preserves the trace accumulated before the error. -/
def M (α : Type) : Type := Trace → MRes α

instance : Monad M where
  pure a := fun t => ⟨.ok a, t⟩
  bind x f := fun t =>
    match x t with
    | ⟨.ok a, t'⟩ => f a t'
    | ⟨.error e, t'⟩ => ⟨.error e, t'⟩

/-- Record an event. -/
def emit (e : Event) : M Unit := fun t => ⟨.ok (), t ++ [e]⟩

/-- Raise an error (Python `raise`). -/
def throwE {α : Type} (e : Err) : M α := fun t => ⟨.error e, t⟩

/-- Run a method from the empty trace. -/
def runM {α : Type} (x : M α) : MRes α := x []

theorem run_pure {α : Type} (a : α) (t : Trace) : (pure a : M α) t = ⟨.ok a, t⟩ := rfl

theorem run_bind {α β : Type} (x : M α) (f : α → M β) (t : Trace) :
    (x >>= f) t =
      match x t with
      | ⟨.ok a, t'⟩ => f a t'
      | ⟨.error e, t'⟩ => ⟨.error e, t'⟩ := rfl

theorem run_emit (e : Event) (t : Trace) : emit e t = ⟨.ok (), t ++ [e]⟩ := rfl

theorem run_throwE {α : Type} (e : Err) (t : Trace) : (throwE (α := α) e) t = ⟨.error e, t⟩ := rfl

/-! ### Numeric helpers (stand-ins for numpy floating point operations) -/

/-- Rational stand-in for the floating point constant `np.pi`.  No verified
property depends on its value beyond positivity. -/
def np_pi : ℚ := 3.141592653589793

theorem np_pi_pos : 0 < np_pi := by norm_num [np_pi]

/-- Rational stand-in for `np.sqrt`: `√(n/d) = √(n·d)/d`, computed with the
integer square root.  It is an approximation of the floating point square
root; no verified property depends on its value beyond positivity on
positive inputs. -/
def sqrtq (q : ℚ) : ℚ := (Nat.sqrt (q.num.toNat * q.den) : ℚ) / (q.den : ℚ)

theorem sqrtq_pos {q : ℚ} (h : 0 < q) : 0 < sqrtq q := by
  have hnum : 0 < q.num := Rat.num_pos.mpr h
  have hden : 0 < q.den := q.den_pos
  have h1 : 1 ≤ q.num.toNat * q.den := by
    have h2 : 1 ≤ q.num.toNat := by omega
    have h3 : 1 ≤ q.den := hden
    exact Nat.one_le_iff_ne_zero.mpr (by positivity)
  have hs : 1 ≤ Nat.sqrt (q.num.toNat * q.den) := by
    have := Nat.sqrt_le_sqrt h1
    simpa using this
  apply div_pos
  · exact_mod_cast Nat.lt_of_lt_of_le Nat.zero_lt_one hs
  · exact_mod_cast hden

/-- Minimum of a list of rationals (`np.amin`; `0` on the empty list, which
never occurs in the verified paths). -/
def listMin : List ℚ → ℚ
  | [] => 0
  | x :: xs => xs.foldl min x

/-- Maximum of a list of rationals (`np.amax`). -/
def listMax : List ℚ → ℚ
  | [] => 0
  | x :: xs => xs.foldl max x

/-- Minimum over a 2D map (`np.amin` on a 2D array). -/
def matMin (m : List (List ℚ)) : ℚ := listMin m.flatten

/-- Maximum over a 2D map (`np.amax` on a 2D array). -/
def matMax (m : List (List ℚ)) : ℚ := listMax m.flatten

/-- Trapezoidal quadrature.  Modelled from the spec (4.2/4.4): the source
`model_tools.trapz_loglog` integrates treating the integrand as a power law
between samples; the log-log weights are irrational, so this model uses the
linear trapezoid — no verified claim depends on the quadrature weights. -/
def trapz_loglog : List ℚ → List ℚ → ℚ
  | y0 :: y1 :: ys, x0 :: x1 :: xs =>
      (x1 - x0) * (y0 + y1) / 2 + trapz_loglog (y1 :: ys) (x1 :: xs)
  | _, _ => 0

/-- Piecewise-linear interpolation through the given nodes, clamped at the
ends.  Stand-in for the interpolation inside the line-of-sight projector
(the source interpolates in log-log space; no verified claim depends on the
interpolation scheme). -/
def interp_lin : List (ℚ × ℚ) → ℚ → ℚ
  | [], _ => 0
  | [(_, y)], _ => y
  | (x0, y0) :: (x1, y1) :: ps, x =>
      if x ≤ x0 then y0
      else if x ≤ x1 then y0 + (y1 - y0) * (x - x0) / (x1 - x0)
      else interp_lin ((x1, y1) :: ps) x

/-- A 2D array (first axis: energy, second axis: radius), or a sky map. -/
abbrev Mat := List (List ℚ)

/-- A sky map whose pixels may be NaN (`none`), used by the SZ and X-ray
pipelines where NaN can occur. -/
abbrev MatX := List (List (Option ℚ))

/-- Transpose of a 2D array. -/
def matTranspose (m : Mat) : Mat := List.transpose m

/-- Elementwise product of two 2D arrays. -/
def matPointwise (a b : Mat) : Mat := List.zipWith (List.zipWith (· * ·)) a b

/-- `model_obs` truncation on a profile: `value[radius > R_truncation] = 0`.
`none` for the truncation radius is `np.inf` (the comparison is then never
true). -/
def gtTrunc (r : ℚ) : Option ℚ → Bool
  | none => false
  | some rt => decide (rt < r)

/-- Zero the entries of a profile whose radius exceeds the truncation
radius (`v[r > Rtrunc] = 0`). -/
def truncate_profile (r v : List ℚ) (Rt : Option ℚ) : List ℚ :=
  List.zipWith (fun ri vi => if gtTrunc ri Rt then 0 else vi) r v

/-- Zero the entries of an `Option`-valued profile whose radius exceeds the
truncation radius (`v[r > Rtrunc] = 0.0`). -/
def truncate_profile_x (r : List ℚ) (v : List (Option ℚ)) (Rt : Option ℚ) :
    List (Option ℚ) :=
  List.zipWith (fun ri vi => if gtTrunc ri Rt then some 0 else vi) r v

/-- Zero the map pixels whose angular distance exceeds the truncation angle
(`map[dist_map > theta_truncation] = 0`). -/
def truncate_map (dm : Mat) (m : Mat) (θt : ℚ) : Mat :=
  List.zipWith (fun drow vrow =>
    List.zipWith (fun d v => if θt < d then 0 else v) drow vrow) dm m

/-- `truncate_map` for maps whose pixels may be NaN. -/
def truncate_map_x (dm : Mat) (m : MatX) (θt : ℚ) : MatX :=
  List.zipWith (fun drow vrow =>
    List.zipWith (fun d v => if θt < d then some 0 else v) drow vrow) dm m

/-! ### Modelled `model_tools` helpers

`model_tools` belongs to this repository but is not among the sources under
verification; the functions below are modelled from the specification
(sections 4.1–4.4).  Each records the event corresponding to the work it
performs. -/

/-- Modelled from the spec (4.1 SamplingEngine): `sampling_array(low, high,
NptPd)` builds a log-spaced grid between `low` and `high` with endpoints
included and fails with `DomainError` if `low <= 0` or `high <= low`.  The
interior log-spaced points are abstracted away (the grid is the two
endpoints): no verified claim depends on the interior spacing.  The
`gridBuilt` event records the bounds that were passed. -/
def sampling_array (low high : ℚ) (NptPd : ℕ) : M (List ℚ) := do
  emit (.gridBuilt low high)
  if low ≤ 0 ∨ high ≤ low then throwE .domainError
  else pure [low, high]

/-- Modelled `np.logspace(log10 low, log10 high, n)` as used directly by
`get_ymap`/`get_sxmap`: a log-spaced grid with endpoints included; numpy
raises no error here.  Interior points abstracted as in `sampling_array`. -/
def np_logspace (low high : ℚ) (n : ℕ) : M (List ℚ) := do
  emit (.gridBuilt low high)
  pure [low, high]

/-- Energy-band integral of a 1D differential rate (spec 4.4), without the
event bookkeeping: log-log trapezoid (modelled by `trapz_loglog`), with the
integrand weighted by energy when `Energy_density` is set. -/
def energy_integration_pure (rate eng : List ℚ) (Energy_density : Bool) : ℚ :=
  if Energy_density then trapz_loglog (List.zipWith (· * ·) eng rate) eng
  else trapz_loglog rate eng

/-- Modelled from the spec (4.4 SpectralIntegrator):
`energy_integration(rate, eng, Energy_density)` for a 1D rate. -/
def energy_integration (rate eng : List ℚ) (Energy_density : Bool) : M ℚ := do
  emit .energyIntegrated
  pure (energy_integration_pure rate eng Energy_density)

/-- `energy_integration` applied to a 2D rate (energy × radius): integrates
each radius column over the energy axis, returning one value per radius. -/
def energy_integration_2d (rate : Mat) (eng : List ℚ) (Energy_density : Bool) :
    M (List ℚ) := do
  emit .energyIntegrated
  pure ((matTranspose rate).map (fun col => energy_integration_pure col eng Energy_density))

/-- Spherical volume integral `∫ 4π r² f(r) dr` of a 1D rate (spec 4.2),
without the event bookkeeping. -/
def spherical_integration_pure (f rad : List ℚ) : ℚ :=
  trapz_loglog (List.zipWith (fun r v => 4 * np_pi * r ^ 2 * v) rad f) rad

/-- Modelled from the spec (4.2 RadialIntegrator): `spherical_integration`
of a 1D rate over its radius grid. -/
def spherical_integration (f rad : List ℚ) : M ℚ := do
  emit .sphericalIntegrated
  pure (spherical_integration_pure f rad)

/-- `spherical_integration` applied to a 2D rate (energy × radius): one
volume integral per energy row. -/
def spherical_integration_2d (f : Mat) (rad : List ℚ) : M (List ℚ) := do
  emit .sphericalIntegrated
  pure (f.map (fun row => spherical_integration_pure row rad))

/-- Line-of-sight integral of a 1D rate at a single projected radius `R`
(spec 4.3): the rate sampled on `r3d` is interpolated at `√(R² + ℓ²)` and
integrated over the line-of-sight grid.  The interpolation variable is the
squared radius so that the composite radius needs no square root; this
linear-in-squared-radius scheme stands in for the float log-log scheme. -/
def los_project (f3d r3d : List ℚ) (R : ℚ) (los : List ℚ) : ℚ :=
  trapz_loglog
    (los.map (fun l => interp_lin (List.zipWith (fun r v => (r ^ 2, v)) r3d f3d) (R ^ 2 + l ^ 2)))
    los

/-- Modelled from the spec (4.3 LineOfSightProjector):
`los_integration_1dfunc(rate_3d, r3d, r2d_query, los)` returns one
projected value per query radius. -/
def los_integration_1dfunc (f3d r3d r2d los : List ℚ) : M (List ℚ) := do
  emit .losProjected
  pure (r2d.map (fun R => los_project f3d r3d R los))

/-- Modelled from the spec (4.2 RadialIntegrator):
`cylindrical_integration(rate, energy, r3d, r2d, los, Rtrunc)` — for each
energy, project the 3D rate on the 2D grid, zero beyond the truncation
radius, and integrate over the projected disk `∫ 2π r proj(r) dr`.
Returns one value per energy (the energy axis is not collapsed: the callers
receive a differential spectrum). -/
def cylindrical_integration (rate : Mat) (eng r3d r2d los : List ℚ)
    (Rtrunc : Option ℚ) : M (List ℚ) := do
  emit .cylindricalIntegrated
  pure (rate.map (fun row =>
    let proj := r2d.map (fun R => los_project row r3d R los)
    let projT := truncate_profile r2d proj Rtrunc
    trapz_loglog (List.zipWith (fun R p => 2 * np_pi * R * p) r2d projT) r2d))

/-- `model_tools.replicate_array(absorb, n, T=True)`: replicate a 1D energy
array into an (energy × n) 2D array. -/
def replicate_array (a : List ℚ) (n : ℕ) : Mat := a.map (List.replicate n)

/-! ### External collaborators

The spec (sections 1 and 6) treats the physical model profiles, the
per-observable volumetric rate functions, the EBL absorption tables, the
XSPEC lookup table, the ClusterTools projection/integration helpers, the
sky-map tools and scipy interpolation/filtering as external collaborators
specified only through their interfaces.  They are bundled here as plain
function fields. -/

structure Ext where
  /-- `self.get_rate_gamma_ray(energy, radius)` → 2D rate (energy × radius). -/
  get_rate_gamma_ray : List ℚ → List ℚ → Mat
  /-- `self.get_rate_neutrino(energy, radius, flavor)`. -/
  get_rate_neutrino : List ℚ → List ℚ → String → Mat
  /-- `self.get_rate_ic(energy, radius)`. -/
  get_rate_ic : List ℚ → List ℚ → Mat
  /-- `self.get_rate_synchrotron(energy, radius)`. -/
  get_rate_synchrotron : List ℚ → List ℚ → Mat
  /-- `cluster_spectra.get_ebl_absorb(energy_GeV, redshift, model)` →
  pointwise absorption factors. -/
  get_ebl_absorb : List ℚ → ℚ → String → List ℚ
  /-- `scipy.interpolate.interp1d(x, y, kind='cubic')`, as an evaluator. -/
  interp1d : List ℚ → List ℚ → ℚ → ℚ
  /-- `self.get_pressure_gas_profile(radius)` → (radius, pressure). -/
  get_pressure_gas_profile : List ℚ → List ℚ × List ℚ
  /-- `self.get_density_gas_profile(radius)` → (radius, density). -/
  get_density_gas_profile : List ℚ → List ℚ × List ℚ
  /-- `self.get_temperature_gas_profile(radius)` → (radius, temperature). -/
  get_temperature_gas_profile : List ℚ → List ℚ × List ℚ
  /-- `cluster_profile.define_safe_radius_array(radius, Rmin, Rmax?, Nptmin)`. -/
  define_safe_radius_array : List ℚ → ℚ → Option ℚ → ℕ → List ℚ
  /-- `cluster_profile.proj_any_model(r3d, value, Npt, Rmax, Rpmax, Rp_input)`
  → (Rproj, projected value); values may be NaN (`none`). -/
  proj_any_model : List ℚ → List (Option ℚ) → ℕ → ℚ → ℚ → List ℚ →
    List ℚ × List (Option ℚ)
  /-- `cluster_profile.get_volume_any_model(rad, integrand, r, Npt)`. -/
  get_volume_any_model : List ℚ → List (Option ℚ) → ℚ → ℕ → Option ℚ
  /-- `self.itpl_xspec_table(path, T_gas)` → `(dC, dS, dR)` channels
  interpolated at each temperature; an absent channel is all NaN. -/
  itpl_xspec_table : String → List ℚ → List (Option ℚ) × List (Option ℚ) × List (Option ℚ)
  /-- `cluster_global.mean_molecular_weight(Y, Z)` →
  `(mu_gas, mu_e, mu_p, mu_alpha)`. -/
  mean_molecular_weight : ℚ → ℚ → ℚ × ℚ × ℚ × ℚ
  /-- The cluster-centric angular-distance map in degrees, i.e. the result
  of `map_tools.greatcircle` on the R.A./Dec. maps of the configured header. -/
  dist_map : Mat
  /-- Pixel scale along x extracted from the header WCS (degrees). -/
  map_reso_x : ℚ
  /-- Pixel scale along y extracted from the header WCS (degrees). -/
  map_reso_y : ℚ
  /-- `map_tools.profile2map(profile, theta_deg, dist_map)` for plain maps. -/
  profile2map : List ℚ → List ℚ → Mat → Mat
  /-- `map_tools.profile2map` for maps whose profile values may be NaN
  (the SZ and X-ray pipelines). -/
  profile2map_x : List (Option ℚ) → List ℚ → Mat → MatX
  /-- `scipy.ndimage.gaussian_filter(map, sigma=(sx, sy), order=0)` for the
  SZ/X-ray maps (whose pixels may be NaN). -/
  gaussian_filter : MatX → ℚ × ℚ → MatX

/-- Modelled from the spec (section 6, rate-function collaborator): the
physics layer of the `Cluster` class supplies exactly one volumetric rate
accessor per observable — the four accessors the source file uses
consistently (`get_rate_gamma_ray`, `get_rate_neutrino`, `get_rate_ic`,
`get_rate_synchrotron`).  A Python attribute access under any other name
fails with `AttributeError`; this lookup table realises that attribute
access for the rate accessors that take `(energy, radius)`. -/
def rate_attr (E : Ext) : String → Option (List ℚ → List ℚ → Mat)
  | "get_rate_gamma_ray" => some E.get_rate_gamma_ray
  | "get_rate_ic" => some E.get_rate_ic
  | "get_rate_synchrotron" => some E.get_rate_synchrotron
  | _ => none

/-- `self.<name>(energy, radius)` for a rate accessor: Python attribute
lookup followed by the call; an unknown attribute raises `AttributeError`. -/
def callRate (E : Ext) (name : String) (eng rad : List ℚ) : M Mat := do
  match rate_attr E name with
  | none => throwE (.attributeError name)
  | some f => do
      emit .rateEvaluated
      pure (f eng rad)

/-- `self.get_rate_neutrino(energy, radius, flavor)` (this accessor takes
the extra `flavor` argument, so it is called directly). -/
def callRateNeutrino (E : Ext) (eng rad : List ℚ) (flavor : String) : M Mat := do
  emit .rateEvaluated
  pure (E.get_rate_neutrino eng rad flavor)

/-! ### Cluster state -/

/-- The `Cluster` attributes read by the `Observables` methods.  They are
immutable during a computation.  `R_truncation = none` is `np.inf`. -/
structure Cluster where
  Rmin : ℚ
  R500 : ℚ
  R_truncation : Option ℚ
  theta_truncation : ℚ
  D_ang : ℚ
  D_lum : ℚ
  redshift : ℚ
  EBL_model : String
  Epmin : ℚ
  Epmax : ℚ
  Npt_per_decade_integ : ℕ
  helium_mass_fraction : ℚ
  metallicity_sol : ℚ
  abundance : ℚ
  output_dir : String

/-- A query bound that is either a scalar or a 1D array (the Python code
distinguishes the two by `type(x.value)`). -/
inductive Bound
  | scalar (v : ℚ)
  | array (vs : List ℚ)
  deriving DecidableEq

/-- A returned flux: scalar or 1D array, matching the bound shapes. -/
inductive FluxResult
  | scalar (v : ℚ)
  | array (vs : List ℚ)
  deriving DecidableEq

/-! ### Physical constants (rational stand-ins for the astropy values) -/

/-- Stand-in for `const.h` in the unit conversion `(const.h * frequency)`.
No verified property depends on its value. -/
def const_h : ℚ := 4.135667696e-15

/-- Stand-in for `const.sigma_T / (const.m_e * const.c ** 2)` in the adopted
units.  No verified property depends on its value. -/
def sigma_T_mec2 : ℚ := 1 / 1000

/-- The conversion factor `1.0 / (2.0 * np.sqrt(2 * np.log(2)))` computed by
`get_ymap`/`get_sxmap` (a float in the source; rational stand-in here, with
the exact real value verified separately as `FWHM2sigmaR`). -/
def FWHM2sigma : ℚ := 0.4246609001440095

/-! ### The `Observables` methods -/

/-- Loop body of the energy-array branch of the flux methods
(`for i in range(len(Emin)): eng_i = sampling_array(Emin[i], Emax); ...
flux[i] = energy_integration(itpl(eng_i), eng_i)`); the same loop appears
verbatim in `get_gamma_flux`, `get_neutrino_flux` and `get_ic_flux`. -/
def flux_Emin_loop (c : Cluster) (itpl : ℚ → ℚ) (Emax : ℚ)
    (Energy_density : Bool) : List ℚ → M (List ℚ)
  | [] => pure []
  | e :: es => do
      let eng_i ← sampling_array e Emax c.Npt_per_decade_integ
      let flux_i ← energy_integration (eng_i.map itpl) eng_i Energy_density
      let rest ← flux_Emin_loop c itpl Emax Energy_density es
      pure (flux_i :: rest)

/-- Loop body of the radius-array spherical branch of the flux methods
(`rad_i = sampling_array(Rmin, Rmax[i]); lum_i =
spherical_integration(itpl(rad_i), rad_i); flux[i] = lum_i/(4 pi D_lum^2)`). -/
def flux_Rsph_loop (c : Cluster) (itpl : ℚ → ℚ) (Rmin D_lum : ℚ) :
    List ℚ → M (List ℚ)
  | [] => pure []
  | R :: Rs => do
      let rad_i ← sampling_array Rmin R c.Npt_per_decade_integ
      let lum_i ← spherical_integration (rad_i.map itpl) rad_i
      let rest ← flux_Rsph_loop c itpl Rmin D_lum Rs
      pure (lum_i / (4 * np_pi * D_lum ^ 2) :: rest)

/-- Loop body of the radius-array cylindrical branch of the flux methods
(`rad_i = sampling_array(Rmin, Rmax[i]); flux[i] =
trapz_loglog(2 pi rad_i * itpl(rad_i), rad_i)`). -/
def flux_Rcyl_loop (c : Cluster) (itpl : ℚ → ℚ) (Rmin : ℚ) :
    List ℚ → M (List ℚ)
  | [] => pure []
  | R :: Rs => do
      let rad_i ← sampling_array Rmin R c.Npt_per_decade_integ
      let proj_i := rad_i.map itpl
      let flux_i := trapz_loglog
        (List.zipWith (fun r p => 2 * np_pi * r * p) rad_i proj_i) rad_i
      let rest ← flux_Rcyl_loop c itpl Rmin Rs
      pure (flux_i :: rest)

/-- `get_gamma_spectrum` (model_obs.py lines 74–141).  The returned pair is
`(energy, dN_dEdSdt)`. -/
def get_gamma_spectrum (E : Ext) (c : Cluster) (energy : List ℚ)
    (RminO RmaxO : Option ℚ) (type_integral : String)
    (Rmin_losO : Option ℚ) (NR500_los : ℚ) : M (List ℚ × List ℚ) := do
  -- energy = model_tools.check_qarray(energy): inputs are lists here
  if (["spherical", "cylindrical"].contains type_integral) = false then
    throwE (.valueError "This requested integral type (type_integral) is not available")
  let Rmin := RminO.getD c.Rmin
  let Rmax := RmaxO.getD c.R500
  let Rmin_los := Rmin_losO.getD c.Rmin
  let dN_dEdt ←
    if type_integral = "spherical" then do
      let rad ← sampling_array Rmin Rmax c.Npt_per_decade_integ
      let dN_dEdVdt ← callRate E "get_rate_gamma_ray" energy rad
      spherical_integration_2d dN_dEdVdt rad
    else do
      let Rmax3d := sqrtq ((NR500_los * c.R500) ^ 2 + Rmax ^ 2)
      let Rmin3d := sqrtq (Rmin_los ^ 2 + Rmin ^ 2)
      let r3d ← sampling_array (Rmin3d * 0.9) (Rmax3d * 1.1) c.Npt_per_decade_integ
      let los ← sampling_array Rmin_los (NR500_los * c.R500) c.Npt_per_decade_integ
      let r2d ← sampling_array Rmin Rmax c.Npt_per_decade_integ
      let dN_dEdVdt ← callRate E "get_rate_gamma_ray" energy r3d
      cylindrical_integration dN_dEdVdt energy r3d r2d los c.R_truncation
  let dN_dEdSdt := dN_dEdt.map (· / (4 * np_pi * c.D_lum ^ 2))
  if c.EBL_model ≠ "none" then do
    emit .absorbApplied
    let absorb := E.get_ebl_absorb energy c.redshift c.EBL_model
    pure (energy, List.zipWith (· * ·) dN_dEdSdt absorb)
  else
    pure (energy, dN_dEdSdt)

/-- `get_gamma_profile` (model_obs.py lines 148–215).  The returned pair is
`(radius, dN_dSdtdO)`. -/
def get_gamma_profile (E : Ext) (c : Cluster) (radius : List ℚ)
    (EminO EmaxO : Option ℚ) (Energy_density : Bool)
    (Rmin_losO : Option ℚ) (NR500_los : ℚ) : M (List ℚ × List ℚ) := do
  let Emin := EminO.getD (c.Epmin / 10)
  let Emax := EmaxO.getD c.Epmax
  let Rmin_los := Rmin_losO.getD c.Rmin
  let Rmin := listMin radius
  let Rmax := listMax radius
  let eng ← sampling_array Emin Emax c.Npt_per_decade_integ
  let Rmax3d := sqrtq ((NR500_los * c.R500) ^ 2 + Rmax ^ 2)
  let Rmin3d := sqrtq (Rmin_los ^ 2 + Rmin ^ 2)
  let r3d ← sampling_array (Rmin3d * 0.9) (Rmax3d * 1.1) c.Npt_per_decade_integ
  let los ← sampling_array Rmin_los (NR500_los * c.R500) c.Npt_per_decade_integ
  let dN_dEdVdt ← callRate E "get_rate_gamma_ray" eng r3d
  let dN_dEdVdt ←
    if c.EBL_model ≠ "none" then do
      emit .absorbApplied
      let absorb := E.get_ebl_absorb eng c.redshift c.EBL_model
      pure (matPointwise dN_dEdVdt (replicate_array absorb r3d.length))
    else pure dN_dEdVdt
  let dN_dVdt ← energy_integration_2d dN_dEdVdt eng Energy_density
  let dN_dVdt_proj ← los_integration_1dfunc dN_dVdt r3d radius los
  let dN_dVdt_proj := truncate_profile radius dN_dVdt_proj c.R_truncation
  let dN_dtdO := dN_dVdt_proj.map (· * c.D_ang ^ 2)
  let dN_dSdtdO := dN_dtdO.map (· / (4 * np_pi * c.D_lum ^ 2))
  pure (radius, dN_dSdtdO)

/-- `get_gamma_flux` (model_obs.py lines 222–366). -/
def get_gamma_flux (E : Ext) (c : Cluster)
    (EminB : Option Bound) (EmaxO : Option ℚ) (Energy_density : Bool)
    (RminO : Option ℚ) (RmaxB : Option Bound) (type_integral : String)
    (Rmin_losO : Option ℚ) (NR500_los : ℚ) : M FluxResult := do
  if (["spherical", "cylindrical"].contains type_integral) = false then
    throwE (.valueError "This requested integral type (type_integral) is not available")
  let Rmin_los := Rmin_losO.getD c.Rmin
  let Rmin := RminO.getD c.Rmin
  let Rmax := RmaxB.getD (.scalar c.R500)
  let Emin := EminB.getD (.scalar (c.Epmin / 10))
  let Emax := EmaxO.getD c.Epmax
  -- `type(Emin.value) == np.ndarray and type(Rmax.value) == np.ndarray`
  -- is checked before the three (mutually exclusive) shape branches run.
  match Emin, Rmax with
  | .array _, .array _ =>
      throwE (.valueError "Emin and Rmax cannot both be array simultaneously")
  | .scalar Emin0, .scalar Rmax0 => do
      let energy ← sampling_array Emin0 Emax c.Npt_per_decade_integ
      let (energy, dN_dEdSdt) ← get_gamma_spectrum E c energy (some Rmin) (some Rmax0)
        type_integral (some Rmin_los) NR500_los
      let flux ← energy_integration dN_dEdSdt energy Energy_density
      pure (.scalar flux)
  | .array Emins, .scalar Rmax0 => do
      let energy ← sampling_array (listMin Emins) Emax c.Npt_per_decade_integ
      let (energy, dN_dEdSdt) ← get_gamma_spectrum E c energy (some Rmin) (some Rmax0)
        type_integral (some Rmin_los) NR500_los
      let itpl := E.interp1d energy dN_dEdSdt
      let flux ← flux_Emin_loop c itpl Emax Energy_density Emins
      pure (.array flux)
  | .scalar Emin0, .array Rmaxs => do
      let eng ← sampling_array Emin0 Emax c.Npt_per_decade_integ
      let Rmax3d := if type_integral = "spherical" then listMax Rmaxs
        else sqrtq ((NR500_los * c.R500) ^ 2 + (listMax Rmaxs) ^ 2) * 1.1
      let Rmin3d := if type_integral = "spherical" then Rmin
        else sqrtq (Rmin_los ^ 2 + Rmin ^ 2) * 0.9
      let r3d ← sampling_array Rmin3d Rmax3d c.Npt_per_decade_integ
      let los ← sampling_array Rmin_los (NR500_los * c.R500) c.Npt_per_decade_integ
      let dN_dEdVdt ← callRate E "get_rate_gamma_ray" eng r3d
      let dN_dEdVdt ←
        if c.EBL_model ≠ "none" then do
          emit .absorbApplied
          let absorb := E.get_ebl_absorb eng c.redshift c.EBL_model
          pure (matPointwise dN_dEdVdt (replicate_array absorb r3d.length))
        else pure dN_dEdVdt
      let dN_dVdt ← energy_integration_2d dN_dEdVdt eng Energy_density
      if type_integral = "spherical" then do
        let itpl := E.interp1d r3d dN_dVdt
        let flux ← flux_Rsph_loop c itpl Rmin c.D_lum Rmaxs
        pure (.array flux)
      else do
        let radius ← sampling_array Rmin (listMax Rmaxs) c.Npt_per_decade_integ
        let dN_dVdt_proj ← los_integration_1dfunc dN_dVdt r3d radius los
        let dN_dVdt_proj := truncate_profile radius dN_dVdt_proj c.R_truncation
        let dN_dSdVdt_proj := dN_dVdt_proj.map (· / (4 * np_pi * c.D_lum ^ 2))
        let itpl := E.interp1d radius dN_dSdVdt_proj
        let flux ← flux_Rcyl_loop c itpl Rmin Rmaxs
        pure (.array flux)

/-- `get_gamma_map` (model_obs.py lines 372–452). -/
def get_gamma_map (E : Ext) (c : Cluster)
    (EminO EmaxO : Option ℚ) (Rmin_losO : Option ℚ) (NR500_los : ℚ)
    (RminO RmaxO : Option ℚ) (Energy_density Normalize : Bool) : M Mat := do
  let dist_map := E.dist_map
  let theta_max := matMax dist_map
  let theta_min := matMin dist_map
  if theta_min > 10 ∧ theta_max > 10 then
    emit .warned
  let rmax := theta_max * np_pi / 180 * c.D_ang
  let rmin := theta_min * np_pi / 180 * c.D_ang
  let radius ← sampling_array rmin rmax c.Npt_per_decade_integ
  let (r_proj, profile) ← get_gamma_profile E c radius EminO EmaxO Energy_density
    Rmin_losO NR500_los
  let theta_proj := r_proj.map (fun r => r / c.D_ang * 180 / np_pi)
  let gamma_map := E.profile2map profile theta_proj dist_map
  let gamma_map := truncate_map dist_map gamma_map c.theta_truncation
  if Normalize then do
    let Rmax := RmaxO.getD (match c.R_truncation with
      | some rt => rt
      | none => NR500_los * c.R500)
    let Rmin := RminO.getD c.Rmin
    let flux ← get_gamma_flux E c (EminO.map .scalar) EmaxO Energy_density
      (some Rmin) (some (.scalar Rmax)) "cylindrical" none NR500_los
    match flux with
    | .scalar f => pure (gamma_map.map (fun row => row.map (· / f)))
    | .array _ => throwE (.valueError "broadcast mismatch")
  else
    pure gamma_map

/-- `get_neutrino_spectrum` (model_obs.py lines 459–523).  Unlike the gamma
and inverse-Compton spectra, no EBL absorption step is present. -/
def get_neutrino_spectrum (E : Ext) (c : Cluster) (energy : List ℚ)
    (RminO RmaxO : Option ℚ) (type_integral : String) (NR500_los : ℚ)
    (Rmin_losO : Option ℚ) (flavor : String) : M (List ℚ × List ℚ) := do
  if (["spherical", "cylindrical"].contains type_integral) = false then
    throwE (.valueError "This requested integral type (type_integral) is not available")
  let Rmin := RminO.getD c.Rmin
  let Rmax := RmaxO.getD c.R500
  let Rmin_los := Rmin_losO.getD c.Rmin
  let dN_dEdt ←
    if type_integral = "spherical" then do
      let rad ← sampling_array Rmin Rmax c.Npt_per_decade_integ
      let dN_dEdVdt ← callRateNeutrino E energy rad flavor
      spherical_integration_2d dN_dEdVdt rad
    else do
      let Rmax3d := sqrtq ((NR500_los * c.R500) ^ 2 + Rmax ^ 2)
      let Rmin3d := sqrtq (Rmin_los ^ 2 + Rmin ^ 2)
      let r3d ← sampling_array (Rmin3d * 0.9) (Rmax3d * 1.1) c.Npt_per_decade_integ
      let los ← sampling_array Rmin_los (NR500_los * c.R500) c.Npt_per_decade_integ
      let r2d ← sampling_array Rmin Rmax c.Npt_per_decade_integ
      let dN_dEdVdt ← callRateNeutrino E energy r3d flavor
      cylindrical_integration dN_dEdVdt energy r3d r2d los c.R_truncation
  let dN_dEdSdt := dN_dEdt.map (· / (4 * np_pi * c.D_lum ^ 2))
  pure (energy, dN_dEdSdt)

/-- `get_neutrino_profile` (model_obs.py lines 530–593).  No EBL absorption
step is present. -/
def get_neutrino_profile (E : Ext) (c : Cluster) (radius : List ℚ)
    (EminO EmaxO : Option ℚ) (Energy_density : Bool)
    (Rmin_losO : Option ℚ) (NR500_los : ℚ) (flavor : String) :
    M (List ℚ × List ℚ) := do
  let Emin := EminO.getD (c.Epmin / 10)
  let Emax := EmaxO.getD c.Epmax
  let Rmin_los := Rmin_losO.getD c.Rmin
  let Rmin := listMin radius
  let Rmax := listMax radius
  let eng ← sampling_array Emin Emax c.Npt_per_decade_integ
  let Rmax3d := sqrtq ((NR500_los * c.R500) ^ 2 + Rmax ^ 2)
  let Rmin3d := sqrtq (Rmin_los ^ 2 + Rmin ^ 2)
  let r3d ← sampling_array (Rmin3d * 0.9) (Rmax3d * 1.1) c.Npt_per_decade_integ
  let los ← sampling_array Rmin_los (NR500_los * c.R500) c.Npt_per_decade_integ
  let dN_dEdVdt ← callRateNeutrino E eng r3d flavor
  let dN_dVdt ← energy_integration_2d dN_dEdVdt eng Energy_density
  let dN_dVdt_proj ← los_integration_1dfunc dN_dVdt r3d radius los
  let dN_dVdt_proj := truncate_profile radius dN_dVdt_proj c.R_truncation
  let dN_dtdO := dN_dVdt_proj.map (· * c.D_ang ^ 2)
  let dN_dSdtdO := dN_dtdO.map (· / (4 * np_pi * c.D_lum ^ 2))
  pure (radius, dN_dSdtdO)

/-- `get_neutrino_flux` (model_obs.py lines 600–747).  Note that the
radius-array branch applies EBL absorption to the neutrino rate (lines
702–705) although no other neutrino path does. -/
def get_neutrino_flux (E : Ext) (c : Cluster)
    (EminB : Option Bound) (EmaxO : Option ℚ) (Energy_density : Bool)
    (RminO : Option ℚ) (RmaxB : Option Bound) (type_integral : String)
    (Rmin_losO : Option ℚ) (NR500_los : ℚ) (flavor : String) : M FluxResult := do
  if (["spherical", "cylindrical"].contains type_integral) = false then
    throwE (.valueError "This requested integral type (type_integral) is not available")
  let Rmin_los := Rmin_losO.getD c.Rmin
  let Rmin := RminO.getD c.Rmin
  let Rmax := RmaxB.getD (.scalar c.R500)
  let Emin := EminB.getD (.scalar (c.Epmin / 10))
  let Emax := EmaxO.getD c.Epmax
  match Emin, Rmax with
  | .array _, .array _ =>
      throwE (.valueError "Emin and Rmax cannot both be array simultaneously")
  | .scalar Emin0, .scalar Rmax0 => do
      let energy ← sampling_array Emin0 Emax c.Npt_per_decade_integ
      let (energy, dN_dEdSdt) ← get_neutrino_spectrum E c energy (some Rmin) (some Rmax0)
        type_integral NR500_los (some Rmin_los) flavor
      let flux ← energy_integration dN_dEdSdt energy Energy_density
      pure (.scalar flux)
  | .array Emins, .scalar Rmax0 => do
      let energy ← sampling_array (listMin Emins) Emax c.Npt_per_decade_integ
      let (energy, dN_dEdSdt) ← get_neutrino_spectrum E c energy (some Rmin) (some Rmax0)
        type_integral NR500_los (some Rmin_los) flavor
      let itpl := E.interp1d energy dN_dEdSdt
      let flux ← flux_Emin_loop c itpl Emax Energy_density Emins
      pure (.array flux)
  | .scalar Emin0, .array Rmaxs => do
      let eng ← sampling_array Emin0 Emax c.Npt_per_decade_integ
      let Rmax3d := if type_integral = "spherical" then listMax Rmaxs
        else sqrtq ((NR500_los * c.R500) ^ 2 + (listMax Rmaxs) ^ 2) * 1.1
      let Rmin3d := if type_integral = "spherical" then Rmin
        else sqrtq (Rmin_los ^ 2 + Rmin ^ 2) * 0.9
      let r3d ← sampling_array Rmin3d Rmax3d c.Npt_per_decade_integ
      let los ← sampling_array Rmin_los (NR500_los * c.R500) c.Npt_per_decade_integ
      -- `self.get_rate_neutrino(eng, r3d)`: the flavor argument is left to
      -- its default `'all'` here (unlike the other neutrino paths).
      let dN_dEdVdt ← callRateNeutrino E eng r3d "all"
      let dN_dEdVdt ←
        if c.EBL_model ≠ "none" then do
          emit .absorbApplied
          let absorb := E.get_ebl_absorb eng c.redshift c.EBL_model
          pure (matPointwise dN_dEdVdt (replicate_array absorb r3d.length))
        else pure dN_dEdVdt
      let dN_dVdt ← energy_integration_2d dN_dEdVdt eng Energy_density
      if type_integral = "spherical" then do
        let itpl := E.interp1d r3d dN_dVdt
        let flux ← flux_Rsph_loop c itpl Rmin c.D_lum Rmaxs
        pure (.array flux)
      else do
        let radius ← sampling_array Rmin (listMax Rmaxs) c.Npt_per_decade_integ
        let dN_dVdt_proj ← los_integration_1dfunc dN_dVdt r3d radius los
        let dN_dVdt_proj := truncate_profile radius dN_dVdt_proj c.R_truncation
        let dN_dSdVdt_proj := dN_dVdt_proj.map (· / (4 * np_pi * c.D_lum ^ 2))
        let itpl := E.interp1d radius dN_dSdVdt_proj
        let flux ← flux_Rcyl_loop c itpl Rmin Rmaxs
        pure (.array flux)

/-- `get_neutrino_map` (model_obs.py lines 753–835). -/
def get_neutrino_map (E : Ext) (c : Cluster)
    (EminO EmaxO : Option ℚ) (Rmin_losO : Option ℚ) (NR500_los : ℚ)
    (RminO RmaxO : Option ℚ) (Energy_density Normalize : Bool)
    (flavor : String) : M Mat := do
  let dist_map := E.dist_map
  let theta_max := matMax dist_map
  let theta_min := matMin dist_map
  if theta_min > 10 ∧ theta_max > 10 then
    emit .warned
  let rmax := theta_max * np_pi / 180 * c.D_ang
  let rmin := theta_min * np_pi / 180 * c.D_ang
  let radius ← sampling_array rmin rmax c.Npt_per_decade_integ
  let (r_proj, profile) ← get_neutrino_profile E c radius EminO EmaxO Energy_density
    Rmin_losO NR500_los flavor
  let theta_proj := r_proj.map (fun r => r / c.D_ang * 180 / np_pi)
  let nu_map := E.profile2map profile theta_proj dist_map
  let nu_map := truncate_map dist_map nu_map c.theta_truncation
  if Normalize then do
    let Rmax := RmaxO.getD (match c.R_truncation with
      | some rt => rt
      | none => NR500_los * c.R500)
    let Rmin := RminO.getD c.Rmin
    let flux ← get_neutrino_flux E c (EminO.map .scalar) EmaxO Energy_density
      (some Rmin) (some (.scalar Rmax)) "cylindrical" none NR500_los flavor
    match flux with
    | .scalar f => pure (nu_map.map (fun row => row.map (· / f)))
    | .array _ => throwE (.valueError "broadcast mismatch")
  else
    pure nu_map

/-- `get_ic_spectrum` (model_obs.py lines 843–910). -/
def get_ic_spectrum (E : Ext) (c : Cluster) (energy : List ℚ)
    (RminO RmaxO : Option ℚ) (type_integral : String)
    (Rmin_losO : Option ℚ) (NR500_los : ℚ) : M (List ℚ × List ℚ) := do
  if (["spherical", "cylindrical"].contains type_integral) = false then
    throwE (.valueError "This requested integral type (type_integral) is not available")
  let Rmin := RminO.getD c.Rmin
  let Rmax := RmaxO.getD c.R500
  let Rmin_los := Rmin_losO.getD c.Rmin
  let dN_dEdt ←
    if type_integral = "spherical" then do
      let rad ← sampling_array Rmin Rmax c.Npt_per_decade_integ
      let dN_dEdVdt ← callRate E "get_rate_ic" energy rad
      spherical_integration_2d dN_dEdVdt rad
    else do
      let Rmax3d := sqrtq ((NR500_los * c.R500) ^ 2 + Rmax ^ 2)
      let Rmin3d := sqrtq (Rmin_los ^ 2 + Rmin ^ 2)
      let r3d ← sampling_array (Rmin3d * 0.9) (Rmax3d * 1.1) c.Npt_per_decade_integ
      let los ← sampling_array Rmin_los (NR500_los * c.R500) c.Npt_per_decade_integ
      let r2d ← sampling_array Rmin Rmax c.Npt_per_decade_integ
      let dN_dEdVdt ← callRate E "get_rate_ic" energy r3d
      cylindrical_integration dN_dEdVdt energy r3d r2d los c.R_truncation
  let dN_dEdSdt := dN_dEdt.map (· / (4 * np_pi * c.D_lum ^ 2))
  if c.EBL_model ≠ "none" then do
    emit .absorbApplied
    let absorb := E.get_ebl_absorb energy c.redshift c.EBL_model
    pure (energy, List.zipWith (· * ·) dN_dEdSdt absorb)
  else
    pure (energy, dN_dEdSdt)

/-- `get_ic_profile` (model_obs.py lines 917–984). -/
def get_ic_profile (E : Ext) (c : Cluster) (radius : List ℚ)
    (EminO EmaxO : Option ℚ) (Energy_density : Bool)
    (Rmin_losO : Option ℚ) (NR500_los : ℚ) : M (List ℚ × List ℚ) := do
  let Emin := EminO.getD (c.Epmin / 10)
  let Emax := EmaxO.getD c.Epmax
  let Rmin_los := Rmin_losO.getD c.Rmin
  let Rmin := listMin radius
  let Rmax := listMax radius
  let eng ← sampling_array Emin Emax c.Npt_per_decade_integ
  let Rmax3d := sqrtq ((NR500_los * c.R500) ^ 2 + Rmax ^ 2)
  let Rmin3d := sqrtq (Rmin_los ^ 2 + Rmin ^ 2)
  let r3d ← sampling_array (Rmin3d * 0.9) (Rmax3d * 1.1) c.Npt_per_decade_integ
  let los ← sampling_array Rmin_los (NR500_los * c.R500) c.Npt_per_decade_integ
  let dN_dEdVdt ← callRate E "get_rate_ic" eng r3d
  let dN_dEdVdt ←
    if c.EBL_model ≠ "none" then do
      emit .absorbApplied
      let absorb := E.get_ebl_absorb eng c.redshift c.EBL_model
      pure (matPointwise dN_dEdVdt (replicate_array absorb r3d.length))
    else pure dN_dEdVdt
  let dN_dVdt ← energy_integration_2d dN_dEdVdt eng Energy_density
  let dN_dVdt_proj ← los_integration_1dfunc dN_dVdt r3d radius los
  let dN_dVdt_proj := truncate_profile radius dN_dVdt_proj c.R_truncation
  let dN_dtdO := dN_dVdt_proj.map (· * c.D_ang ^ 2)
  let dN_dSdtdO := dN_dtdO.map (· / (4 * np_pi * c.D_lum ^ 2))
  pure (radius, dN_dSdtdO)

/-- `get_ic_flux` (model_obs.py lines 990–1134).  The radius-array branch
calls `self.get_rate_ic_ray` (line 1087), an accessor the rate collaborator
does not provide. -/
def get_ic_flux (E : Ext) (c : Cluster)
    (EminB : Option Bound) (EmaxO : Option ℚ) (Energy_density : Bool)
    (RminO : Option ℚ) (RmaxB : Option Bound) (type_integral : String)
    (Rmin_losO : Option ℚ) (NR500_los : ℚ) : M FluxResult := do
  if (["spherical", "cylindrical"].contains type_integral) = false then
    throwE (.valueError "This requested integral type (type_integral) is not available")
  let Rmin_los := Rmin_losO.getD c.Rmin
  let Rmin := RminO.getD c.Rmin
  let Rmax := RmaxB.getD (.scalar c.R500)
  let Emin := EminB.getD (.scalar (c.Epmin / 10))
  let Emax := EmaxO.getD c.Epmax
  match Emin, Rmax with
  | .array _, .array _ =>
      throwE (.valueError "Emin and Rmax cannot both be array simultaneously")
  | .scalar Emin0, .scalar Rmax0 => do
      let energy ← sampling_array Emin0 Emax c.Npt_per_decade_integ
      let (energy, dN_dEdSdt) ← get_ic_spectrum E c energy (some Rmin) (some Rmax0)
        type_integral (some Rmin_los) NR500_los
      let flux ← energy_integration dN_dEdSdt energy Energy_density
      pure (.scalar flux)
  | .array Emins, .scalar Rmax0 => do
      let energy ← sampling_array (listMin Emins) Emax c.Npt_per_decade_integ
      let (energy, dN_dEdSdt) ← get_ic_spectrum E c energy (some Rmin) (some Rmax0)
        type_integral (some Rmin_los) NR500_los
      let itpl := E.interp1d energy dN_dEdSdt
      let flux ← flux_Emin_loop c itpl Emax Energy_density Emins
      pure (.array flux)
  | .scalar Emin0, .array Rmaxs => do
      let eng ← sampling_array Emin0 Emax c.Npt_per_decade_integ
      let Rmax3d := if type_integral = "spherical" then listMax Rmaxs
        else sqrtq ((NR500_los * c.R500) ^ 2 + (listMax Rmaxs) ^ 2) * 1.1
      let Rmin3d := if type_integral = "spherical" then Rmin
        else sqrtq (Rmin_los ^ 2 + Rmin ^ 2) * 0.9
      let r3d ← sampling_array Rmin3d Rmax3d c.Npt_per_decade_integ
      let los ← sampling_array Rmin_los (NR500_los * c.R500) c.Npt_per_decade_integ
      -- `dN_dEdVdt = self.get_rate_ic_ray(eng, r3d)`: attribute lookup of
      -- a rate accessor the collaborator interface does not provide.
      let dN_dEdVdt ← callRate E "get_rate_ic_ray" eng r3d
      let dN_dEdVdt ←
        if c.EBL_model ≠ "none" then do
          emit .absorbApplied
          let absorb := E.get_ebl_absorb eng c.redshift c.EBL_model
          pure (matPointwise dN_dEdVdt (replicate_array absorb r3d.length))
        else pure dN_dEdVdt
      let dN_dVdt ← energy_integration_2d dN_dEdVdt eng Energy_density
      if type_integral = "spherical" then do
        let itpl := E.interp1d r3d dN_dVdt
        let flux ← flux_Rsph_loop c itpl Rmin c.D_lum Rmaxs
        pure (.array flux)
      else do
        let radius ← sampling_array Rmin (listMax Rmaxs) c.Npt_per_decade_integ
        let dN_dVdt_proj ← los_integration_1dfunc dN_dVdt r3d radius los
        let dN_dVdt_proj := truncate_profile radius dN_dVdt_proj c.R_truncation
        let dN_dSdVdt_proj := dN_dVdt_proj.map (· / (4 * np_pi * c.D_lum ^ 2))
        let itpl := E.interp1d radius dN_dSdVdt_proj
        let flux ← flux_Rcyl_loop c itpl Rmin Rmaxs
        pure (.array flux)

/-- `get_ic_map` (model_obs.py lines 1140–1220). -/
def get_ic_map (E : Ext) (c : Cluster)
    (EminO EmaxO : Option ℚ) (Rmin_losO : Option ℚ) (NR500_los : ℚ)
    (RminO RmaxO : Option ℚ) (Energy_density Normalize : Bool) : M Mat := do
  let dist_map := E.dist_map
  let theta_max := matMax dist_map
  let theta_min := matMin dist_map
  if theta_min > 10 ∧ theta_max > 10 then
    emit .warned
  let rmax := theta_max * np_pi / 180 * c.D_ang
  let rmin := theta_min * np_pi / 180 * c.D_ang
  let radius ← sampling_array rmin rmax c.Npt_per_decade_integ
  let (r_proj, profile) ← get_ic_profile E c radius EminO EmaxO Energy_density
    Rmin_losO NR500_los
  let theta_proj := r_proj.map (fun r => r / c.D_ang * 180 / np_pi)
  let ic_map := E.profile2map profile theta_proj dist_map
  let ic_map := truncate_map dist_map ic_map c.theta_truncation
  if Normalize then do
    let Rmax := RmaxO.getD (match c.R_truncation with
      | some rt => rt
      | none => NR500_los * c.R500)
    let Rmin := RminO.getD c.Rmin
    let flux ← get_ic_flux E c (EminO.map .scalar) EmaxO Energy_density
      (some Rmin) (some (.scalar Rmax)) "cylindrical" none NR500_los
    match flux with
    | .scalar f => pure (ic_map.map (fun row => row.map (· / f)))
    | .array _ => throwE (.valueError "broadcast mismatch")
  else
    pure ic_map

/-- `get_synchrotron_spectrum` (model_obs.py lines 1227–1290).  The return
value is `(frequency, dN_dEdSdt * energy^2 / frequency)`. -/
def get_synchrotron_spectrum (E : Ext) (c : Cluster) (frequency : List ℚ)
    (RminO RmaxO : Option ℚ) (type_integral : String)
    (Rmin_losO : Option ℚ) (NR500_los : ℚ) : M (List ℚ × List ℚ) := do
  let energy := frequency.map (· * const_h)
  if (["spherical", "cylindrical"].contains type_integral) = false then
    throwE (.valueError "This requested integral type (type_integral) is not available")
  let Rmin := RminO.getD c.Rmin
  let Rmax := RmaxO.getD c.R500
  let Rmin_los := Rmin_losO.getD c.Rmin
  let dN_dEdt ←
    if type_integral = "spherical" then do
      let rad ← sampling_array Rmin Rmax c.Npt_per_decade_integ
      let dN_dEdVdt ← callRate E "get_rate_synchrotron" energy rad
      spherical_integration_2d dN_dEdVdt rad
    else do
      let Rmax3d := sqrtq ((NR500_los * c.R500) ^ 2 + Rmax ^ 2)
      let Rmin3d := sqrtq (Rmin_los ^ 2 + Rmin ^ 2)
      let r3d ← sampling_array (Rmin3d * 0.9) (Rmax3d * 1.1) c.Npt_per_decade_integ
      let los ← sampling_array Rmin_los (NR500_los * c.R500) c.Npt_per_decade_integ
      let r2d ← sampling_array Rmin Rmax c.Npt_per_decade_integ
      let dN_dEdVdt ← callRate E "get_rate_synchrotron" energy r3d
      cylindrical_integration dN_dEdVdt energy r3d r2d los c.R_truncation
  let dN_dEdSdt := dN_dEdt.map (· / (4 * np_pi * c.D_lum ^ 2))
  let sed := List.zipWith (fun ef v => v * ef.1 ^ 2 / ef.2)
    (energy.zip frequency) dN_dEdSdt
  pure (frequency, sed)

/-- `get_synchrotron_profile` (model_obs.py lines 1297–1346). -/
def get_synchrotron_profile (E : Ext) (c : Cluster) (radius : List ℚ)
    (freq0 : ℚ) (Rmin_losO : Option ℚ) (NR500_los : ℚ) :
    M (List ℚ × List ℚ) := do
  let Rmin_los := Rmin_losO.getD c.Rmin
  let Rmin := listMin radius
  let Rmax := listMax radius
  let eng0 := freq0 * const_h
  let Rmax3d := sqrtq ((NR500_los * c.R500) ^ 2 + Rmax ^ 2)
  let Rmin3d := sqrtq (Rmin_los ^ 2 + Rmin ^ 2)
  let r3d ← sampling_array (Rmin3d * 0.9) (Rmax3d * 1.1) c.Npt_per_decade_integ
  let los ← sampling_array Rmin_los (NR500_los * c.R500) c.Npt_per_decade_integ
  -- `self.get_rate_synchrotron(eng0, r3d).flatten()`
  let rate ← callRate E "get_rate_synchrotron" [eng0] r3d
  let dN_dVdt_E := rate.flatten
  let dN_dVdt_E_proj ← los_integration_1dfunc dN_dVdt_E r3d radius los
  let dN_dVdt_E_proj := truncate_profile radius dN_dVdt_E_proj c.R_truncation
  let dN_dtdO_E := dN_dVdt_E_proj.map (· * c.D_ang ^ 2)
  let dN_dSdtdO_E := dN_dtdO_E.map (· / (4 * np_pi * c.D_lum ^ 2))
  let sed := dN_dSdtdO_E.map (· * eng0 ^ 2 / freq0)
  pure (radius, sed)

/-- Loop body of the radius-array spherical branch of
`get_synchrotron_flux` (`lum_i = spherical_integration(...) * eng0^2/freq0;
flux[i] = lum_i / (4 pi D_lum^2)`). -/
def sync_Rsph_loop (c : Cluster) (itpl : ℚ → ℚ) (Rmin D_lum eng0 freq0 : ℚ) :
    List ℚ → M (List ℚ)
  | [] => pure []
  | R :: Rs => do
      let rad_i ← sampling_array Rmin R c.Npt_per_decade_integ
      let sph_i ← spherical_integration (rad_i.map itpl) rad_i
      let lum_i := sph_i * eng0 ^ 2 / freq0
      let rest ← sync_Rsph_loop c itpl Rmin D_lum eng0 freq0 Rs
      pure (lum_i / (4 * np_pi * D_lum ^ 2) :: rest)

/-- Loop body of the radius-array cylindrical branch of
`get_synchrotron_flux` (`flux[i] = trapz_loglog(2 pi rad_i * itpl(rad_i),
rad_i) * eng0^2/freq0`). -/
def sync_Rcyl_loop (c : Cluster) (itpl : ℚ → ℚ) (Rmin eng0 freq0 : ℚ) :
    List ℚ → M (List ℚ)
  | [] => pure []
  | R :: Rs => do
      let rad_i ← sampling_array Rmin R c.Npt_per_decade_integ
      let proj_i := rad_i.map itpl
      let flux_i := trapz_loglog
        (List.zipWith (fun r p => 2 * np_pi * r * p) rad_i proj_i) rad_i * eng0 ^ 2 / freq0
      let rest ← sync_Rcyl_loop c itpl Rmin eng0 freq0 Rs
      pure (flux_i :: rest)

/-- `get_synchrotron_flux` (model_obs.py lines 1353–1441).  The scalar path
returns the (single-frequency) spectrum values; the radius-array path
returns one flux per requested outer radius. -/
def get_synchrotron_flux (E : Ext) (c : Cluster) (freq0 : ℚ)
    (RminO : Option ℚ) (RmaxB : Option Bound) (type_integral : String)
    (Rmin_losO : Option ℚ) (NR500_los : ℚ) : M (List ℚ) := do
  if (["spherical", "cylindrical"].contains type_integral) = false then
    throwE (.valueError "This requested integral type (type_integral) is not available")
  let Rmin_los := Rmin_losO.getD c.Rmin
  let Rmin := RminO.getD c.Rmin
  let Rmax := RmaxB.getD (.scalar c.R500)
  match Rmax with
  | .scalar Rmax0 => do
      let (_, flux) ← get_synchrotron_spectrum E c [freq0] (some Rmin) (some Rmax0)
        type_integral (some Rmin_los) NR500_los
      pure flux
  | .array Rmaxs => do
      let eng0 := freq0 * const_h
      let Rmax3d := if type_integral = "spherical" then listMax Rmaxs
        else sqrtq ((NR500_los * c.R500) ^ 2 + (listMax Rmaxs) ^ 2) * 1.1
      let Rmin3d := if type_integral = "spherical" then Rmin
        else sqrtq (Rmin_los ^ 2 + Rmin ^ 2) * 0.9
      let r3d ← sampling_array Rmin3d Rmax3d c.Npt_per_decade_integ
      let los ← sampling_array Rmin_los (NR500_los * c.R500) c.Npt_per_decade_integ
      let rate ← callRate E "get_rate_synchrotron" [eng0] r3d
      let dN_dVdt_E := rate.flatten
      -- `itpl` is built from the 3D grid before the spherical branch test
      let itpl := E.interp1d r3d dN_dVdt_E
      if type_integral = "spherical" then do
        sync_Rsph_loop c itpl Rmin c.D_lum eng0 freq0 Rmaxs
      else do
        let radius ← sampling_array Rmin (listMax Rmaxs) c.Npt_per_decade_integ
        let dN_dVdt_E_proj ← los_integration_1dfunc dN_dVdt_E r3d radius los
        let dN_dVdt_E_proj := truncate_profile radius dN_dVdt_E_proj c.R_truncation
        let dN_dSdVdt_E_proj := dN_dVdt_E_proj.map (· / (4 * np_pi * c.D_lum ^ 2))
        let itpl2 := E.interp1d radius dN_dSdVdt_E_proj
        sync_Rcyl_loop c itpl2 Rmin eng0 freq0 Rmaxs

/-- `get_synchrotron_map` (model_obs.py lines 1447–1518). -/
def get_synchrotron_map (E : Ext) (c : Cluster) (freq0 : ℚ)
    (Rmin_losO : Option ℚ) (NR500_los : ℚ)
    (RminO RmaxO : Option ℚ) (Normalize : Bool) : M Mat := do
  let dist_map := E.dist_map
  let theta_max := matMax dist_map
  let theta_min := matMin dist_map
  if theta_min > 10 ∧ theta_max > 10 then
    emit .warned
  let rmax := theta_max * np_pi / 180 * c.D_ang
  let rmin := theta_min * np_pi / 180 * c.D_ang
  let radius ← sampling_array rmin rmax c.Npt_per_decade_integ
  let (r_proj, profile) ← get_synchrotron_profile E c radius freq0 Rmin_losO NR500_los
  let theta_proj := r_proj.map (fun r => r / c.D_ang * 180 / np_pi)
  let sync_map := E.profile2map profile theta_proj dist_map
  let sync_map := truncate_map dist_map sync_map c.theta_truncation
  if Normalize then do
    let Rmax := RmaxO.getD (match c.R_truncation with
      | some rt => rt
      | none => NR500_los * c.R500)
    let Rmin := RminO.getD c.Rmin
    let flux ← get_synchrotron_flux E c freq0 (some Rmin) (some (.scalar Rmax))
      "cylindrical" none NR500_los
    -- `synchrotron_map / flux` with `flux` a one-element array
    match flux with
    | [f] => pure (sync_map.map (fun row => row.map (· / f)))
    | _ => throwE (.valueError "broadcast mismatch")
  else
    pure sync_map

/-- `get_y_compton_profile` (model_obs.py lines 1609–1655).  Values may be
NaN (`none`), as produced by the external projector. -/
def get_y_compton_profile (E : Ext) (c : Cluster) (radius : List ℚ)
    (NR500_los : ℚ) (Npt_los : ℕ) : M (List ℚ × List (Option ℚ)) := do
  let p_radius := E.define_safe_radius_array radius 1 (some (NR500_los * c.R500)) 1000
  let (rad3d, p_r) := E.get_pressure_gas_profile p_radius
  let Rmax := NR500_los * c.R500
  let Rpmax := listMax radius
  let (Rproj, Pproj) := E.proj_any_model rad3d (p_r.map some) Npt_los Rmax Rpmax radius
  let y_compton := Pproj.map (Option.map (· * sigma_T_mec2))
  let y_compton := truncate_profile_x Rproj y_compton c.R_truncation
  pure (Rproj, y_compton)

/-- `get_ymap` (model_obs.py lines 1662–1721).  The WCS pixel scales are the
externally extracted `map_reso_x`/`map_reso_y`; when the minimum cluster
distance over the map is exactly `0` it is replaced by `1e-4` degrees before
the logarithmic radius grid is built. -/
def get_ymap (E : Ext) (c : Cluster) (FWHM : Option ℚ) (NR500_los : ℚ)
    (Npt_los : ℕ) : M MatX := do
  let map_reso_x := E.map_reso_x
  let map_reso_y := E.map_reso_y
  let dist_map := E.dist_map
  let theta_max := matMax dist_map
  let theta_min0 := matMin dist_map
  -- `if theta_min == 0: theta_min = 1e-4  # Zero will cause bug`
  let theta_min := if theta_min0 = 0 then 1e-4 else theta_min0
  let rmax := theta_max * np_pi / 180 * c.D_ang
  let rmin := theta_min * np_pi / 180 * c.D_ang
  let radius ← np_logspace rmin rmax 1000
  let (r_proj, y_profile) ← get_y_compton_profile E c radius NR500_los Npt_los
  let theta_proj := r_proj.map (fun r => r / c.D_ang * 180 / np_pi)
  let ymap := E.profile2map_x y_profile theta_proj dist_map
  let ymap := truncate_map_x dist_map ymap c.theta_truncation
  match FWHM with
  | none => pure ymap
  | some F => pure (E.gaussian_filter ymap
      (FWHM2sigma * F / map_reso_x, FWHM2sigma * F / map_reso_y))

/-- `get_sx_profile` (model_obs.py lines 1737–1815).  An all-NaN
detector-count-rate channel combined with `output_type = 'R'` raises before
any further work. -/
def get_sx_profile (E : Ext) (c : Cluster) (radius : List ℚ)
    (NR500_los : ℚ) (Npt_los : ℕ) (output_type : String) :
    M (List ℚ × List (Option ℚ)) := do
  let n_radius := E.define_safe_radius_array radius 1 (some (NR500_los * c.R500)) 1000
  let (rad3d, n_e) := E.get_density_gas_profile n_radius
  let (_, T_g) := E.get_temperature_gas_profile n_radius
  let (dC_xspec, dS_xspec, dR_xspec) :=
    E.itpl_xspec_table (c.output_dir ++ "/XSPEC_table.txt") T_g
  -- `if np.sum(~np.isnan(dR_xspec)) == 0 and output_type == 'R': raise`
  if (dR_xspec.all (·.isNone)) ∧ output_type = "R" then
    throwE (.valueError "You ask for an output in ph/s/sr (i.e. including instrumental response), but the xspec table was generated without response file.")
  let (_, mu_e, mu_p, _) := E.mean_molecular_weight c.helium_mass_fraction
    (c.metallicity_sol * c.abundance)
  let constant := 1e-14 / (4 * np_pi * c.D_ang ^ 2 * (1 + c.redshift) ^ 2)
  let integrand ←
    if output_type = "S" then
      pure (List.zipWith (fun dS ne => dS.map (fun v => constant * v * ne ^ 2 * mu_e / mu_p))
        dS_xspec n_e)
    else if output_type = "C" then
      pure (List.zipWith (fun dC ne => dC.map (fun v => constant * v * ne ^ 2 * mu_e / mu_p))
        dC_xspec n_e)
    else if output_type = "R" then
      pure (List.zipWith (fun dR ne => dR.map (fun v => constant * v * ne ^ 2 * mu_e / mu_p))
        dR_xspec n_e)
    else throwE (.valueError "Output type available are S, C and R.")
  let Rmax := NR500_los * c.R500
  let Rpmax := listMax radius
  let (Rproj, Sx) := E.proj_any_model rad3d integrand Npt_los Rmax Rpmax radius
  let Sx := truncate_profile_x Rproj Sx c.R_truncation
  -- unit attachment per output type (`Sx = (Sx * D_ang**2).to(...) / sr`)
  let Sx ←
    if output_type = "S" ∨ output_type = "C" ∨ output_type = "R" then
      pure (Sx.map (Option.map (· * c.D_ang ^ 2)))
    else throwE (.valueError "Output type available are S, C and R.")
  pure (Rproj, Sx)

/-- `get_fxsph_profile` (model_obs.py lines 1822–1885).  Note the absence of
the all-NaN check that `get_sx_profile` performs before using the
detector-count-rate channel. -/
def get_fxsph_profile (E : Ext) (c : Cluster) (radius : List ℚ)
    (output_type : String) : M (List ℚ × List (Option ℚ)) := do
  let _press_radius := E.define_safe_radius_array radius 1 none 1000
  let n_radius := E.define_safe_radius_array radius 1 none 1000
  let (rad, n_e) := E.get_density_gas_profile n_radius
  let (_, T_g) := E.get_temperature_gas_profile n_radius
  let (dC_xspec, dS_xspec, dR_xspec) :=
    E.itpl_xspec_table (c.output_dir ++ "/XSPEC_table.txt") T_g
  let (_, mu_e, mu_p, _) := E.mean_molecular_weight c.helium_mass_fraction
    (c.metallicity_sol * c.abundance)
  let constant := 1e-14 / (4 * np_pi * c.D_ang ^ 2 * (1 + c.redshift) ^ 2)
  let integrand ←
    if output_type = "S" then
      pure (List.zipWith (fun dS ne => dS.map (fun v => constant * v * ne ^ 2 * mu_e / mu_p))
        dS_xspec n_e)
    else if output_type = "C" then
      pure (List.zipWith (fun dC ne => dC.map (fun v => constant * v * ne ^ 2 * mu_e / mu_p))
        dC_xspec n_e)
    else if output_type = "R" then
      pure (List.zipWith (fun dR ne => dR.map (fun v => constant * v * ne ^ 2 * mu_e / mu_p))
        dR_xspec n_e)
    else throwE (.valueError "Output type available are S, C and R.")
  let EI_r := radius.map (fun r => E.get_volume_any_model rad integrand r 1000)
  -- unit attachment per output type (`flux_r = EI_r * Unit(...)`)
  let flux_r ←
    if output_type = "S" ∨ output_type = "C" ∨ output_type = "R" then
      pure EI_r
    else throwE (.valueError "Output type available are S, C and R.")
  pure (radius, flux_r)

/-- `get_sxmap` (model_obs.py lines 1953–2033). -/
def get_sxmap (E : Ext) (c : Cluster) (FWHM : Option ℚ) (NR500_los : ℚ)
    (Npt_los : ℕ) (output_type : String) : M MatX := do
  let map_reso_x := E.map_reso_x
  let map_reso_y := E.map_reso_y
  let dist_map := E.dist_map
  let theta_max := matMax dist_map
  let theta_min0 := matMin dist_map
  -- `if theta_min == 0: theta_min = 1e-4  # Zero will cause bug`
  let theta_min := if theta_min0 = 0 then 1e-4 else theta_min0
  let rmax := theta_max * np_pi / 180 * c.D_ang
  let rmin := theta_min * np_pi / 180 * c.D_ang
  let radius ← np_logspace rmin rmax 1000
  let (r_proj, sx_profile) ← get_sx_profile E c radius NR500_los Npt_los output_type
  let theta_proj := r_proj.map (fun r => r / c.D_ang * 180 / np_pi)
  let sxmap ←
    if output_type = "S" ∨ output_type = "C" ∨ output_type = "R" then
      pure (E.profile2map_x sx_profile theta_proj dist_map)
    else throwE (.valueError "Output type available are S, C and R.")
  let sxmap := truncate_map_x dist_map sxmap c.theta_truncation
  let sxmap :=
    match FWHM with
    | none => sxmap
    | some F => E.gaussian_filter sxmap
        (FWHM2sigma * F / map_reso_x, FWHM2sigma * F / map_reso_y)
  if output_type = "S" ∨ output_type = "C" ∨ output_type = "R" then
    pure sxmap
  else throwE (.valueError "Output type available are S, C and R.")

/-! ### Run lemmas -/

theorem sampling_array_ok {low high : ℚ} (n : ℕ) (h : ¬(low ≤ 0 ∨ high ≤ low)) (t : Trace) :
    sampling_array low high n t = ⟨.ok [low, high], t ++ [.gridBuilt low high]⟩ := by
  simp [sampling_array, Bind.bind, emit, throwE, h, pure]

theorem sampling_array_err {low high : ℚ} (n : ℕ) (h : low ≤ 0 ∨ high ≤ low) (t : Trace) :
    sampling_array low high n t = ⟨.error .domainError, t ++ [.gridBuilt low high]⟩ := by
  simp [sampling_array, Bind.bind, emit, throwE, h, pure]

theorem callRate_gamma_run (E : Ext) (eng rad : List ℚ) (t : Trace) :
    callRate E "get_rate_gamma_ray" eng rad t =
      ⟨.ok (E.get_rate_gamma_ray eng rad), t ++ [.rateEvaluated]⟩ := rfl

theorem callRate_ic_run (E : Ext) (eng rad : List ℚ) (t : Trace) :
    callRate E "get_rate_ic" eng rad t =
      ⟨.ok (E.get_rate_ic eng rad), t ++ [.rateEvaluated]⟩ := rfl

theorem callRate_sync_run (E : Ext) (eng rad : List ℚ) (t : Trace) :
    callRate E "get_rate_synchrotron" eng rad t =
      ⟨.ok (E.get_rate_synchrotron eng rad), t ++ [.rateEvaluated]⟩ := rfl

theorem callRate_icray_run (E : Ext) (eng rad : List ℚ) (t : Trace) :
    callRate E "get_rate_ic_ray" eng rad t =
      ⟨.error (.attributeError "get_rate_ic_ray"), t⟩ := rfl

theorem callRateNeutrino_run (E : Ext) (eng rad : List ℚ) (flavor : String) (t : Trace) :
    callRateNeutrino E eng rad flavor t =
      ⟨.ok (E.get_rate_neutrino eng rad flavor), t ++ [.rateEvaluated]⟩ := rfl

/-! ### Trace observations -/

/-- Number of `absorbApplied` events in a trace. -/
def absorbCount (t : Trace) : ℕ := t.countP (fun e => e == Event.absorbApplied)

@[simp] theorem absorbCount_nil : absorbCount [] = 0 := rfl

@[simp] theorem absorbCount_append (a b : Trace) :
    absorbCount (a ++ b) = absorbCount a + absorbCount b := List.countP_append _ _ _

@[simp] theorem absorbCount_cons (e : Event) (t : Trace) :
    absorbCount (e :: t) = absorbCount t + (if e = .absorbApplied then 1 else 0) := by
  simp only [absorbCount, List.countP_cons]
  split <;> simp_all [beq_iff_eq]

/-- `absorbOnceFirst t` holds when the trace contains exactly one
`absorbApplied` event and no `energyIntegrated` event precedes it — the
formal reading of "the absorption factor is applied exactly once, before
any energy integration". -/
def absorbOnceFirst : Trace → Bool
  | [] => false
  | .absorbApplied :: rest => absorbCount rest == 0
  | .energyIntegrated :: _ => false
  | _ :: rest => absorbOnceFirst rest

@[simp] theorem absorbOnceFirst_grid (a b : ℚ) (t : Trace) :
    absorbOnceFirst (.gridBuilt a b :: t) = absorbOnceFirst t := rfl

@[simp] theorem absorbOnceFirst_rate (t : Trace) :
    absorbOnceFirst (.rateEvaluated :: t) = absorbOnceFirst t := rfl

@[simp] theorem absorbOnceFirst_sph (t : Trace) :
    absorbOnceFirst (.sphericalIntegrated :: t) = absorbOnceFirst t := rfl

@[simp] theorem absorbOnceFirst_cyl (t : Trace) :
    absorbOnceFirst (.cylindricalIntegrated :: t) = absorbOnceFirst t := rfl

@[simp] theorem absorbOnceFirst_los (t : Trace) :
    absorbOnceFirst (.losProjected :: t) = absorbOnceFirst t := rfl

@[simp] theorem absorbOnceFirst_warn (t : Trace) :
    absorbOnceFirst (.warned :: t) = absorbOnceFirst t := rfl

@[simp] theorem absorbOnceFirst_absorb (t : Trace) :
    absorbOnceFirst (.absorbApplied :: t) = (absorbCount t == 0) := rfl

@[simp] theorem absorbOnceFirst_energy (t : Trace) :
    absorbOnceFirst (.energyIntegrated :: t) = false := rfl

/-- The bounds recorded by the first grid-construction event of a trace. -/
def firstGrid : Trace → Option (ℚ × ℚ)
  | [] => none
  | .gridBuilt a b :: _ => some (a, b)
  | _ :: t => firstGrid t

@[simp] theorem firstGrid_grid (a b : ℚ) (t : Trace) :
    firstGrid (.gridBuilt a b :: t) = some (a, b) := rfl

@[simp] theorem firstGrid_rate (t : Trace) :
    firstGrid (.rateEvaluated :: t) = firstGrid t := rfl

@[simp] theorem firstGrid_warn (t : Trace) :
    firstGrid (.warned :: t) = firstGrid t := rfl

/-! ### Truncation index lemmas -/

theorem truncate_profile_map_getElem (r : List ℚ) (g : ℚ → ℚ) (Rt : Option ℚ) :
    ∀ (i : ℕ) (ri : ℚ), r[i]? = some ri → gtTrunc ri Rt = true →
      (truncate_profile r (r.map g) Rt)[i]? = some 0 := by
  induction r with
  | nil => intro i ri h _; simp at h
  | cons x xs ih =>
      intro i ri h ht
      cases i with
      | zero =>
          simp only [List.getElem?_cons_zero, Option.some.injEq] at h
          subst h
          simp [truncate_profile, ht]
      | succ n =>
          simp only [List.getElem?_cons_succ] at h
          simpa [truncate_profile] using ih n ri h ht

theorem truncate_profile_x_getElem (r : List ℚ) (v : List (Option ℚ)) (Rt : Option ℚ)
    (i : ℕ) (ri : ℚ) (w : Option ℚ) (h : r[i]? = some ri) (ht : gtTrunc ri Rt = true)
    (hw : (truncate_profile_x r v Rt)[i]? = some w) : w = some 0 := by
  simp only [truncate_profile_x, List.getElem?_zipWith, h] at hw
  cases hv : v[i]? with
  | none => rw [hv] at hw; simp at hw
  | some b =>
      rw [hv] at hw
      simp only [ht, if_true, Option.some.injEq] at hw
      exact hw.symm

theorem truncate_map_getElem (dm m : Mat) (θt : ℚ) (i j : ℕ) (d w : ℚ)
    (hd : dm[i]?.bind (fun row => row[j]?) = some d) (ht : θt < d)
    (hw : (truncate_map dm m θt)[i]?.bind (fun row => row[j]?) = some w) : w = 0 := by
  simp only [truncate_map, List.getElem?_zipWith] at hw
  rcases hdm : dm[i]? with _ | drow
  · simp [hdm] at hd
  · rcases hm : m[i]? with _ | vrow
    · simp [hdm, hm] at hw
    · simp only [hdm, hm, Option.some_bind] at hw
      simp only [hdm, Option.some_bind] at hd
      simp only [List.getElem?_zipWith, hd] at hw
      cases hv : vrow[j]? with
      | none => rw [hv] at hw; simp at hw
      | some v =>
          rw [hv] at hw
          simp only [ht, if_true, Option.some.injEq] at hw
          exact hw.symm

theorem truncate_map_x_getElem (dm : Mat) (m : MatX) (θt : ℚ) (i j : ℕ) (d : ℚ)
    (w : Option ℚ)
    (hd : dm[i]?.bind (fun row => row[j]?) = some d) (ht : θt < d)
    (hw : (truncate_map_x dm m θt)[i]?.bind (fun row => row[j]?) = some w) :
    w = some 0 := by
  simp only [truncate_map_x, List.getElem?_zipWith] at hw
  rcases hdm : dm[i]? with _ | drow
  · simp [hdm] at hd
  · rcases hm : m[i]? with _ | vrow
    · simp [hdm, hm] at hw
    · simp only [hdm, hm, Option.some_bind] at hw
      simp only [hdm, Option.some_bind] at hd
      simp only [List.getElem?_zipWith, hd] at hw
      cases hv : vrow[j]? with
      | none => rw [hv] at hw; simp at hw
      | some v =>
          rw [hv] at hw
          simp only [ht, if_true, Option.some.injEq] at hw
          exact hw.symm

/-! ### Loop trace lemmas: the per-query re-integration loops add no
`absorbApplied` events. -/

theorem flux_Emin_loop_trace (c : Cluster) (itpl : ℚ → ℚ) (Emax : ℚ) (ed : Bool) :
    ∀ (es : List ℚ) (t : Trace), ∃ u,
      (flux_Emin_loop c itpl Emax ed es t).trace = t ++ u ∧ absorbCount u = 0 := by
  intro es
  induction es with
  | nil => intro t; exact ⟨[], by simp [flux_Emin_loop, pure], rfl⟩
  | cons e es ih =>
      intro t
      by_cases h : (e ≤ 0 ∨ Emax ≤ e)
      · refine ⟨[.gridBuilt e Emax], ?_, rfl⟩
        simp [flux_Emin_loop, Bind.bind, sampling_array_err _ h]
      · obtain ⟨u', hu', hc'⟩ := ih (t ++ [.gridBuilt e Emax, .energyIntegrated])
        refine ⟨[.gridBuilt e Emax, .energyIntegrated] ++ u', ?_, by simp [hc']⟩
        simp [flux_Emin_loop, Bind.bind, sampling_array_ok _ h, energy_integration,
          emit, pure]
        rcases hrest : flux_Emin_loop c itpl Emax ed es
            (t ++ [.gridBuilt e Emax, .energyIntegrated]) with ⟨res, tr⟩
        rcases res with err | v <;> simp_all

theorem flux_Rsph_loop_trace (c : Cluster) (itpl : ℚ → ℚ) (Rmin D_lum : ℚ) :
    ∀ (Rs : List ℚ) (t : Trace), ∃ u,
      (flux_Rsph_loop c itpl Rmin D_lum Rs t).trace = t ++ u ∧ absorbCount u = 0 := by
  intro Rs
  induction Rs with
  | nil => intro t; exact ⟨[], by simp [flux_Rsph_loop, pure], rfl⟩
  | cons R Rs ih =>
      intro t
      by_cases h : (Rmin ≤ 0 ∨ R ≤ Rmin)
      · refine ⟨[.gridBuilt Rmin R], ?_, rfl⟩
        simp [flux_Rsph_loop, Bind.bind, sampling_array_err _ h]
      · obtain ⟨u', hu', hc'⟩ := ih (t ++ [.gridBuilt Rmin R, .sphericalIntegrated])
        refine ⟨[.gridBuilt Rmin R, .sphericalIntegrated] ++ u', ?_, by simp [hc']⟩
        simp [flux_Rsph_loop, Bind.bind, sampling_array_ok _ h, spherical_integration,
          emit, pure]
        rcases hrest : flux_Rsph_loop c itpl Rmin D_lum Rs
            (t ++ [.gridBuilt Rmin R, .sphericalIntegrated]) with ⟨res, tr⟩
        rcases res with err | v <;> simp_all

theorem flux_Rcyl_loop_trace (c : Cluster) (itpl : ℚ → ℚ) (Rmin : ℚ) :
    ∀ (Rs : List ℚ) (t : Trace), ∃ u,
      (flux_Rcyl_loop c itpl Rmin Rs t).trace = t ++ u ∧ absorbCount u = 0 := by
  intro Rs
  induction Rs with
  | nil => intro t; exact ⟨[], by simp [flux_Rcyl_loop, pure], rfl⟩
  | cons R Rs ih =>
      intro t
      by_cases h : (Rmin ≤ 0 ∨ R ≤ Rmin)
      · refine ⟨[.gridBuilt Rmin R], ?_, rfl⟩
        simp [flux_Rcyl_loop, Bind.bind, sampling_array_err _ h]
      · obtain ⟨u', hu', hc'⟩ := ih (t ++ [.gridBuilt Rmin R])
        refine ⟨[.gridBuilt Rmin R] ++ u', ?_, by simp [hc']⟩
        simp [flux_Rcyl_loop, Bind.bind, sampling_array_ok _ h, pure]
        rcases hrest : flux_Rcyl_loop c itpl Rmin Rs
            (t ++ [.gridBuilt Rmin R]) with ⟨res, tr⟩
        rcases res with err | v <;> simp_all

theorem sync_Rsph_loop_trace (c : Cluster) (itpl : ℚ → ℚ) (Rmin D_lum eng0 freq0 : ℚ) :
    ∀ (Rs : List ℚ) (t : Trace), ∃ u,
      (sync_Rsph_loop c itpl Rmin D_lum eng0 freq0 Rs t).trace = t ++ u ∧
        absorbCount u = 0 := by
  intro Rs
  induction Rs with
  | nil => intro t; exact ⟨[], by simp [sync_Rsph_loop, pure], rfl⟩
  | cons R Rs ih =>
      intro t
      by_cases h : (Rmin ≤ 0 ∨ R ≤ Rmin)
      · refine ⟨[.gridBuilt Rmin R], ?_, rfl⟩
        simp [sync_Rsph_loop, Bind.bind, sampling_array_err _ h]
      · obtain ⟨u', hu', hc'⟩ := ih (t ++ [.gridBuilt Rmin R, .sphericalIntegrated])
        refine ⟨[.gridBuilt Rmin R, .sphericalIntegrated] ++ u', ?_, by simp [hc']⟩
        simp [sync_Rsph_loop, Bind.bind, sampling_array_ok _ h, spherical_integration,
          emit, pure]
        rcases hrest : sync_Rsph_loop c itpl Rmin D_lum eng0 freq0 Rs
            (t ++ [.gridBuilt Rmin R, .sphericalIntegrated]) with ⟨res, tr⟩
        rcases res with err | v <;> simp_all

theorem sync_Rcyl_loop_trace (c : Cluster) (itpl : ℚ → ℚ) (Rmin eng0 freq0 : ℚ) :
    ∀ (Rs : List ℚ) (t : Trace), ∃ u,
      (sync_Rcyl_loop c itpl Rmin eng0 freq0 Rs t).trace = t ++ u ∧
        absorbCount u = 0 := by
  intro Rs
  induction Rs with
  | nil => intro t; exact ⟨[], by simp [sync_Rcyl_loop, pure], rfl⟩
  | cons R Rs ih =>
      intro t
      by_cases h : (Rmin ≤ 0 ∨ R ≤ Rmin)
      · refine ⟨[.gridBuilt Rmin R], ?_, rfl⟩
        simp [sync_Rcyl_loop, Bind.bind, sampling_array_err _ h]
      · obtain ⟨u', hu', hc'⟩ := ih (t ++ [.gridBuilt Rmin R])
        refine ⟨[.gridBuilt Rmin R] ++ u', ?_, by simp [hc']⟩
        simp [sync_Rcyl_loop, Bind.bind, sampling_array_ok _ h, pure]
        rcases hrest : sync_Rcyl_loop c itpl Rmin eng0 freq0 Rs
            (t ++ [.gridBuilt Rmin R]) with ⟨res, tr⟩
        rcases res with err | v <;> simp_all

/-- The literal membership test of the integral-type guard, evaluated. -/
theorem contains_sph : (["spherical", "cylindrical"].contains "spherical") = true := rfl

/-- Extending a trace that applies absorption exactly once (before any
energy integration) by events holding no absorption keeps that shape. -/
theorem absorbOnceFirst_append_of (t u : Trace) (ht : absorbOnceFirst t = true)
    (hu : absorbCount u = 0) : absorbOnceFirst (t ++ u) = true := by
  induction t with
  | nil => simp [absorbOnceFirst] at ht
  | cons e rest ih =>
      cases e with
      | absorbApplied =>
          simp only [List.cons_append, absorbOnceFirst_absorb] at ht ⊢
          simp only [beq_iff_eq] at ht ⊢
          simp [ht, hu]
      | energyIntegrated => simp at ht
      | gridBuilt a b => simpa using ih (by simpa using ht)
      | rateEvaluated => simpa using ih (by simpa using ht)
      | sphericalIntegrated => simpa using ih (by simpa using ht)
      | cylindricalIntegrated => simpa using ih (by simpa using ht)
      | losProjected => simpa using ih (by simpa using ht)
      | warned => simpa using ih (by simpa using ht)

/-- The per-`Emin` re-integration loop preserves the
absorbed-exactly-once-first shape of the trace it starts from. -/
theorem flux_Emin_loop_absorbOnce (c : Cluster) (itpl : ℚ → ℚ) (Emax : ℚ) (ed : Bool)
    (es : List ℚ) (t : Trace) (ht : absorbOnceFirst t = true) :
    absorbOnceFirst ((flux_Emin_loop c itpl Emax ed es t).trace) = true := by
  obtain ⟨u, hu, hc⟩ := flux_Emin_loop_trace c itpl Emax ed es t
  rw [hu]
  exact absorbOnceFirst_append_of _ _ ht hc

/-- The per-`Rmax` spherical re-integration loop preserves the
absorbed-exactly-once-first shape of the trace it starts from. -/
theorem flux_Rsph_loop_absorbOnce (c : Cluster) (itpl : ℚ → ℚ) (Rmin D_lum : ℚ)
    (Rs : List ℚ) (t : Trace) (ht : absorbOnceFirst t = true) :
    absorbOnceFirst ((flux_Rsph_loop c itpl Rmin D_lum Rs t).trace) = true := by
  obtain ⟨u, hu, hc⟩ := flux_Rsph_loop_trace c itpl Rmin D_lum Rs t
  rw [hu]
  exact absorbOnceFirst_append_of _ _ ht hc

/-- The per-`Emin` re-integration loop keeps an absorption-free trace
absorption-free. -/
theorem flux_Emin_loop_absorbCount (c : Cluster) (itpl : ℚ → ℚ) (Emax : ℚ) (ed : Bool)
    (es : List ℚ) (t : Trace) (ht : absorbCount t = 0) :
    absorbCount ((flux_Emin_loop c itpl Emax ed es t).trace) = 0 := by
  obtain ⟨u, hu, hc⟩ := flux_Emin_loop_trace c itpl Emax ed es t
  rw [hu]
  simp [ht, hc]

/-- The per-`Rmax` spherical synchrotron re-integration loop keeps an
absorption-free trace absorption-free. -/
theorem sync_Rsph_loop_absorbCount (c : Cluster) (itpl : ℚ → ℚ)
    (Rmin D_lum eng0 freq0 : ℚ) (Rs : List ℚ) (t : Trace) (ht : absorbCount t = 0) :
    absorbCount ((sync_Rsph_loop c itpl Rmin D_lum eng0 freq0 Rs t).trace) = 0 := by
  obtain ⟨u, hu, hc⟩ := sync_Rsph_loop_trace c itpl Rmin D_lum eng0 freq0 Rs t
  rw [hu]
  simp [ht, hc]

/-! ### Grid well-formedness abbreviations (hypotheses under which the
modelled `sampling_array` calls succeed) -/

/-- The energy grid `sampling_array(Emin, Emax)` of the profile/flux
methods succeeds. -/
abbrev eng_grid_ok (c : Cluster) (EminO EmaxO : Option ℚ) : Prop :=
  ¬(EminO.getD (c.Epmin / 10) ≤ 0 ∨ EmaxO.getD c.Epmax ≤ EminO.getD (c.Epmin / 10))

/-- The radial grid `sampling_array(Rmin, Rmax)` of the spectrum methods
(spherical branch and the cylindrical 2D grid) succeeds. -/
abbrev rad_grid_ok (c : Cluster) (RminO RmaxO : Option ℚ) : Prop :=
  ¬(RminO.getD c.Rmin ≤ 0 ∨ RmaxO.getD c.R500 ≤ RminO.getD c.Rmin)

/-- The 3D grid of the cylindrical spectrum branch succeeds. -/
abbrev spec_r3d_ok (c : Cluster) (RminO RmaxO Rmin_losO : Option ℚ) (NR : ℚ) : Prop :=
  ¬(sqrtq ((Rmin_losO.getD c.Rmin) ^ 2 + (RminO.getD c.Rmin) ^ 2) * 0.9 ≤ 0 ∨
    sqrtq ((NR * c.R500) ^ 2 + (RmaxO.getD c.R500) ^ 2) * 1.1 ≤
      sqrtq ((Rmin_losO.getD c.Rmin) ^ 2 + (RminO.getD c.Rmin) ^ 2) * 0.9)

/-- The 3D grid of the profile methods succeeds. -/
abbrev prof_r3d_ok (c : Cluster) (Rmin_losO : Option ℚ) (NR : ℚ) (radius : List ℚ) : Prop :=
  ¬(sqrtq ((Rmin_losO.getD c.Rmin) ^ 2 + (listMin radius) ^ 2) * 0.9 ≤ 0 ∨
    sqrtq ((NR * c.R500) ^ 2 + (listMax radius) ^ 2) * 1.1 ≤
      sqrtq ((Rmin_losO.getD c.Rmin) ^ 2 + (listMin radius) ^ 2) * 0.9)

/-- The line-of-sight grid succeeds. -/
abbrev los_grid_ok (c : Cluster) (Rmin_losO : Option ℚ) (NR : ℚ) : Prop :=
  ¬(Rmin_losO.getD c.Rmin ≤ 0 ∨ NR * c.R500 ≤ Rmin_losO.getD c.Rmin)

instance {α β : Type} [DecidableEq α] [DecidableEq β] : DecidableEq (Except α β) :=
  fun x y =>
    match x, y with
    | .ok a, .ok b => if h : a = b then .isTrue (by rw [h]) else .isFalse (by simp [h])
    | .error a, .error b => if h : a = b then .isTrue (by rw [h]) else .isFalse (by simp [h])
    | .ok _, .error _ => .isFalse (by simp)
    | .error _, .ok _ => .isFalse (by simp)

/-! ### Concrete collaborator instantiations (used by the closed
evaluation theorems) -/

/-- Three-tap discrete convolution with weights `(1/4, 1/2, 1/4)`. -/
def smooth3 : ℚ → List ℚ → List ℚ
  | _, [] => []
  | p, v :: vs => (p / 4 + v / 2 + (vs.headD 0) / 4) :: smooth3 v vs

/-- A concrete behaviour of the Gaussian-filter collaborator: per-row
convolution with the normalized three-tap kernel `(1/4, 1/2, 1/4)` — a
discretized Gaussian, retaining the property that matters here: all kernel
weights are strictly positive, so nonzero pixels spread into their
neighbours.  (`none` pixels are treated as `0`.) -/
def gaussStandinX (m : MatX) (_sigma : ℚ × ℚ) : MatX :=
  m.map (fun row => (smooth3 0 (row.map (fun v => v.getD 0))).map some)

/-- A simple total instantiation of every external collaborator, used to
evaluate the embedded methods at concrete inputs. -/
def ExtA : Ext where
  get_rate_gamma_ray := fun eng rad => eng.map (fun _ => rad.map (fun _ => 1))
  get_rate_neutrino := fun eng rad _ => eng.map (fun _ => rad.map (fun _ => 1))
  get_rate_ic := fun eng rad => eng.map (fun _ => rad.map (fun _ => 1))
  get_rate_synchrotron := fun eng rad => eng.map (fun _ => rad.map (fun _ => 1))
  get_ebl_absorb := fun eng _ _ => eng.map (fun _ => 1 / 2)
  interp1d := fun _ _ _ => 1
  get_pressure_gas_profile := fun r => (r, r.map (fun _ => 1))
  get_density_gas_profile := fun r => (r, r.map (fun _ => 1))
  get_temperature_gas_profile := fun r => (r, r.map (fun _ => 1))
  define_safe_radius_array := fun r _ _ _ => r
  proj_any_model := fun _ v _ _ _ rp => (rp, rp.map (fun _ => v.headD (some 1)))
  get_volume_any_model := fun _ v _ _ => if v.any (·.isNone) then none else some 1
  itpl_xspec_table := fun _ T =>
    (T.map (fun _ => some 1), T.map (fun _ => some 1), T.map (fun _ => some 1))
  mean_molecular_weight := fun _ _ => (1, 1, 1, 1)
  dist_map := [[0, 6]]
  map_reso_x := 1
  map_reso_y := 2
  profile2map := fun prof _ dm => dm.map (fun row => row.map (fun _ => prof.headD 0))
  profile2map_x := fun prof _ dm =>
    dm.map (fun row => row.map (fun _ => prof.headD (some 0)))
  gaussian_filter := gaussStandinX

/-- A concrete cluster configuration with an EBL model configured. -/
def cA : Cluster where
  Rmin := 1
  R500 := 1000
  R_truncation := some 800
  theta_truncation := 5
  D_ang := 1000
  D_lum := 2000
  redshift := 1 / 2
  EBL_model := "dominguez"
  Epmin := 1
  Epmax := 100
  Npt_per_decade_integ := 10
  helium_mass_fraction := 1 / 4
  metallicity_sol := 1
  abundance := 3 / 10
  output_dir := "out"

/-- `cA` with the EBL absorption disabled. -/
def cNone : Cluster := { cA with EBL_model := "none" }

/-- A cluster configuration whose radii form Pythagorean triples, so that
the `sqrtq` values appearing in the grid bounds evaluate exactly. -/
def cW : Cluster := { cA with Rmin := 4, R500 := 12, R_truncation := some 8 }

/-- `cA` with an angular diameter distance that makes the degree-to-kpc
conversion exact. -/
def cY : Cluster := { cA with D_ang := 180 / np_pi }

theorem Nat_sqrt_eval {n k : ℕ} (h1 : k * k ≤ n) (h2 : n < (k + 1) * (k + 1)) :
    Nat.sqrt n = k := (Nat.eq_sqrt.mpr ⟨h1, h2⟩).symm

theorem sqrtq_32 : sqrtq 32 = 5 := by
  have h : Nat.sqrt 32 = 5 := Nat_sqrt_eval (by norm_num) (by norm_num)
  simp [sqrtq, h]

theorem sqrtq_3721 : sqrtq 3721 = 61 := by
  have h : Nat.sqrt 3721 = 61 := Nat_sqrt_eval (by norm_num) (by norm_num)
  simp [sqrtq, h]

theorem sqrtq_125 : sqrtq 125 = 11 := by
  have h : Nat.sqrt 125 = 11 := Nat_sqrt_eval (by norm_num) (by norm_num)
  simp [sqrtq, h]

theorem sqrtq_4369 : sqrtq 4369 = 66 := by
  have h : Nat.sqrt 4369 = 66 := Nat_sqrt_eval (by norm_num) (by norm_num)
  simp [sqrtq, h]

theorem sqrtq_10 : sqrtq 10 = 3 := by
  have h : Nat.sqrt 10 = 3 := Nat_sqrt_eval (by norm_num) (by norm_num)
  simp [sqrtq, h]

theorem sqrtq_1000016 : sqrtq 1000016 = 1000 := by
  have h : Nat.sqrt 1000016 = 1000 := Nat_sqrt_eval (by norm_num) (by norm_num)
  simp [sqrtq, h]

/-- The spherical-branch neutrino spectrum holds no absorption event in its
trace, whatever EBL model is configured (the general fact behind both the
C2 counterexample and the C2 neutrino conjuncts). -/
theorem neutrino_spectrum_no_absorb (E : Ext) (c : Cluster) (energy : List ℚ)
    (RminO RmaxO : Option ℚ) (NR : ℚ) (Rmin_losO : Option ℚ) (flavor : String)
    (h4 : rad_grid_ok c RminO RmaxO) :
    absorbCount (runM (get_neutrino_spectrum E c energy RminO RmaxO "spherical" NR
      Rmin_losO flavor)).trace = 0 := by
  simp only [runM, get_neutrino_spectrum]
  simp only [contains_sph]
  simp [Bind.bind, pure, emit, sampling_array_ok _ h4, callRateNeutrino_run,
    spherical_integration_2d]

/-! ### Claims -/

/-- The `ValueError` raised for an unrecognized integral type. -/
def errIntegral : Err :=
  .valueError "This requested integral type (type_integral) is not available"

/-- C5: for every spectrum or flux operation accepting a `type_integral`
argument (`get_gamma_spectrum`, `get_gamma_flux`, `get_neutrino_spectrum`,
`get_neutrino_flux`, `get_ic_spectrum`, `get_ic_flux`,
`get_synchrotron_spectrum`, `get_synchrotron_flux`), any `type_integral`
string other than `'spherical'` or `'cylindrical'` raises the
invalid-parameter `ValueError`, with an empty event trace: no sampling grid
is built, no rate function is evaluated, and no integration is performed
before the error. -/
theorem C5_invalid_integral_type
    (E : Ext) (c : Cluster) (energy frequency : List ℚ)
    (EminB RmaxB : Option Bound) (EmaxO RminO RmaxO Rmin_losO : Option ℚ)
    (ed : Bool) (NR freq0 : ℚ) (flavor : String) (t : String)
    (ht : t ≠ "spherical" ∧ t ≠ "cylindrical") :
    runM (get_gamma_spectrum E c energy RminO RmaxO t Rmin_losO NR) =
      ⟨.error errIntegral, []⟩ ∧
    runM (get_gamma_flux E c EminB EmaxO ed RminO RmaxB t Rmin_losO NR) =
      ⟨.error errIntegral, []⟩ ∧
    runM (get_neutrino_spectrum E c energy RminO RmaxO t NR Rmin_losO flavor) =
      ⟨.error errIntegral, []⟩ ∧
    runM (get_neutrino_flux E c EminB EmaxO ed RminO RmaxB t Rmin_losO NR flavor) =
      ⟨.error errIntegral, []⟩ ∧
    runM (get_ic_spectrum E c energy RminO RmaxO t Rmin_losO NR) =
      ⟨.error errIntegral, []⟩ ∧
    runM (get_ic_flux E c EminB EmaxO ed RminO RmaxB t Rmin_losO NR) =
      ⟨.error errIntegral, []⟩ ∧
    runM (get_synchrotron_spectrum E c frequency RminO RmaxO t Rmin_losO NR) =
      ⟨.error errIntegral, []⟩ ∧
    runM (get_synchrotron_flux E c freq0 RminO RmaxB t Rmin_losO NR) =
      ⟨.error errIntegral, []⟩ := by
  refine ⟨?_, ?_, ?_, ?_, ?_, ?_, ?_, ?_⟩ <;>
    simp [runM, get_gamma_spectrum, get_gamma_flux, get_neutrino_spectrum,
      get_neutrino_flux, get_ic_spectrum, get_ic_flux, get_synchrotron_spectrum,
      get_synchrotron_flux, errIntegral, Bind.bind, throwE, pure, ht.1, ht.2]

/-- Witness for C5 at a concrete invalid integral type. -/
theorem C5_invalid_integral_type_witness :
    ("conical" ≠ "spherical" ∧ "conical" ≠ "cylindrical") ∧
    runM (get_gamma_spectrum ExtA cA [1] none none "conical" none 5) =
      ⟨.error errIntegral, []⟩ :=
  ⟨by decide,
    (C5_invalid_integral_type ExtA cA [1] [1] none none none none none none
      false 5 1 "all" "conical" (by decide)).1⟩

/-- C4: supplying both `Emin` and `Rmax` as 1D arrays to `get_gamma_flux`,
`get_neutrino_flux` or `get_ic_flux` raises the invalid-query `ValueError`
with an empty event trace: no sampling grid is built, no rate function is
evaluated, and no integration work is attempted before the error. -/
theorem C4_both_arrays_invalid_query
    (E : Ext) (c : Cluster) (es rs : List ℚ)
    (EmaxO RminO Rmin_losO : Option ℚ) (ed : Bool) (NR : ℚ) (flavor : String)
    (t : String) (ht : t = "spherical" ∨ t = "cylindrical") :
    runM (get_gamma_flux E c (some (.array es)) EmaxO ed RminO
        (some (.array rs)) t Rmin_losO NR) =
      ⟨.error (.valueError "Emin and Rmax cannot both be array simultaneously"), []⟩ ∧
    runM (get_neutrino_flux E c (some (.array es)) EmaxO ed RminO
        (some (.array rs)) t Rmin_losO NR flavor) =
      ⟨.error (.valueError "Emin and Rmax cannot both be array simultaneously"), []⟩ ∧
    runM (get_ic_flux E c (some (.array es)) EmaxO ed RminO
        (some (.array rs)) t Rmin_losO NR) =
      ⟨.error (.valueError "Emin and Rmax cannot both be array simultaneously"), []⟩ := by
  rcases ht with rfl | rfl <;>
    exact ⟨by simp [runM, get_gamma_flux, Bind.bind, throwE, pure],
      by simp [runM, get_neutrino_flux, Bind.bind, throwE, pure],
      by simp [runM, get_ic_flux, Bind.bind, throwE, pure]⟩

/-- Witness for C4 at concrete array bounds. -/
theorem C4_both_arrays_invalid_query_witness :
    ("spherical" = "spherical" ∨ "spherical" = "cylindrical") ∧
    runM (get_gamma_flux ExtA cA (some (.array [1, 2])) none false none
        (some (.array [100, 200])) "spherical" none 5) =
      ⟨.error (.valueError "Emin and Rmax cannot both be array simultaneously"), []⟩ :=
  ⟨Or.inl rfl,
    (C4_both_arrays_invalid_query ExtA cA [1, 2] [100, 200] none none none
      false 5 "all" "spherical" (Or.inl rfl)).1⟩

/-- C9: whenever `get_ic_flux` is called with `Rmax` a 1D array (and the
resolved `Emin` a scalar), the radius-array branch looks up the rate
accessor `get_rate_ic_ray`, which the rate collaborator does not provide:
the call never returns a flux value, and — whenever the sampling grids
preceding the lookup are well formed — it fails precisely with
`AttributeError("get_rate_ic_ray")`. -/
theorem C9_ic_flux_array_raises (E : Ext) (c : Cluster)
    (EminB : Option Bound) (EmaxO RminO Rmin_losO : Option ℚ) (ed : Bool)
    (rs : List ℚ) (NR : ℚ) (e0 : ℚ)
    (hE : EminB.getD (.scalar (c.Epmin / 10)) = .scalar e0)
    (t : String) (ht : t = "spherical" ∨ t = "cylindrical") :
    ((runM (get_ic_flux E c EminB EmaxO ed RminO (some (.array rs)) t
        Rmin_losO NR)).res).isOk = false ∧
    (¬(e0 ≤ 0 ∨ EmaxO.getD c.Epmax ≤ e0) →
     ¬(RminO.getD c.Rmin ≤ 0 ∨ listMax rs ≤ RminO.getD c.Rmin) →
     ¬(sqrtq ((Rmin_losO.getD c.Rmin) ^ 2 + (RminO.getD c.Rmin) ^ 2) * 0.9 ≤ 0 ∨
        sqrtq ((NR * c.R500) ^ 2 + (listMax rs) ^ 2) * 1.1 ≤
          sqrtq ((Rmin_losO.getD c.Rmin) ^ 2 + (RminO.getD c.Rmin) ^ 2) * 0.9) →
     los_grid_ok c Rmin_losO NR →
     (runM (get_ic_flux E c EminB EmaxO ed RminO (some (.array rs)) t
        Rmin_losO NR)).res = .error (.attributeError "get_rate_ic_ray")) := by
  constructor
  · rcases ht with rfl | rfl
    · by_cases h1 : (e0 ≤ 0 ∨ EmaxO.getD c.Epmax ≤ e0) <;>
      by_cases h2 : (RminO.getD c.Rmin ≤ 0 ∨ listMax rs ≤ RminO.getD c.Rmin) <;>
      by_cases h3 : (Rmin_losO.getD c.Rmin ≤ 0 ∨ NR * c.R500 ≤ Rmin_losO.getD c.Rmin) <;>
      simp [runM, get_ic_flux, hE, Bind.bind, pure, emit, throwE, callRate, rate_attr,
        sampling_array_ok, sampling_array_err, h1, h2, h3, Except.isOk, Except.toBool]
    · by_cases h1 : (e0 ≤ 0 ∨ EmaxO.getD c.Epmax ≤ e0) <;>
      by_cases h2 : (sqrtq ((Rmin_losO.getD c.Rmin) ^ 2 + (RminO.getD c.Rmin) ^ 2) * 0.9 ≤ 0 ∨
        sqrtq ((NR * c.R500) ^ 2 + (listMax rs) ^ 2) * 1.1 ≤
          sqrtq ((Rmin_losO.getD c.Rmin) ^ 2 + (RminO.getD c.Rmin) ^ 2) * 0.9) <;>
      by_cases h3 : (Rmin_losO.getD c.Rmin ≤ 0 ∨ NR * c.R500 ≤ Rmin_losO.getD c.Rmin) <;>
      simp [runM, get_ic_flux, hE, Bind.bind, pure, emit, throwE, callRate, rate_attr,
        sampling_array_ok, sampling_array_err, h1, h2, h3, Except.isOk, Except.toBool]
  · intro h1 h2s h2c h3
    rcases ht with rfl | rfl <;>
      simp [runM, get_ic_flux, hE, Bind.bind, pure, emit, throwE, callRate, rate_attr,
        sampling_array_ok, h1, h2s, h2c, h3]

/-- Witness for C9 at a concrete radius-array query. -/
theorem C9_ic_flux_array_raises_witness :
    (runM (get_ic_flux ExtA cW none none false none (some (.array [11]))
      "spherical" none 5)).res = .error (.attributeError "get_rate_ic_ray") :=
  (C9_ic_flux_array_raises ExtA cW none none none none false [11] 5 (cW.Epmin / 10)
    rfl "spherical" (Or.inl rfl)).2
    (by norm_num [cW, cA])
    (by norm_num [cW, cA, listMax, max_def])
    (by norm_num [cW, cA, listMax, max_def, sqrtq_32, sqrtq_3721])
    (by norm_num [cW, cA])

/-- C3, failing case: evaluating `get_ic_flux` at the concrete degenerate
one-element radius array `Rmax = [500]` (cylindrical; all other parameters
at their defaults) raises `AttributeError("get_rate_ic_ray")` instead of
returning the flux that the scalar call `Rmax = 500` returns: the
scalar-vs-single-element-array agreement guarantee cannot hold for
`get_ic_flux`. -/
theorem C3_ic_flux_array_path_fails :
    (runM (get_ic_flux ExtA cA none none false none (some (.array [500]))
        "spherical" none 5)).res = .error (.attributeError "get_rate_ic_ray") ∧
    ((runM (get_ic_flux ExtA cA none none false none (some (.scalar 500))
        "spherical" none 5)).res).isOk = true := by
  have hd : cA.EBL_model = "none" ↔ False := by simp [cA]
  have h1 : ¬(cA.Epmin / 10 ≤ 0 ∨ cA.Epmax ≤ cA.Epmin / 10) := by norm_num [cA]
  have h2 : ¬(cA.Rmin ≤ 0 ∨ listMax [(500 : ℚ)] ≤ cA.Rmin) := by
    norm_num [cA, listMax]
  have h2' : ¬(cA.Rmin ≤ 0 ∨ (500 : ℚ) ≤ cA.Rmin) := by norm_num [cA]
  have h3 : ¬(cA.Rmin ≤ 0 ∨ 5 * cA.R500 ≤ cA.Rmin) := by norm_num [cA]
  constructor <;>
    simp [runM, get_ic_flux, get_ic_spectrum, Bind.bind, pure, emit, throwE,
      callRate_icray_run, callRate_ic_run, sampling_array_ok, spherical_integration_2d,
      energy_integration, h1, h2, h2', h3, Except.isOk, Except.toBool, hd]

/-- `ExtA` with an XSPEC table whose detector-count-rate channel is
entirely NaN (generated without a response file). -/
def ExtNaN : Ext := { ExtA with itpl_xspec_table := fun _ T =>
  (T.map (fun _ => some 1), T.map (fun _ => some 1), T.map (fun _ => none)) }

/-- Does a run of an X-ray profile method succeed while returning at least
one NaN value? -/
def returnsNaN (r : MRes (List ℚ × List (Option ℚ))) : Bool :=
  match r.res with
  | .ok p => p.2.any (·.isNone)
  | .error _ => false

/-- C6, counterexample: with an XSPEC table whose detector-count-rate
channel is entirely NaN, `get_fxsph_profile(output_type='R')` does not
raise a configuration error — it returns successfully with NaN-valued
results, so the claim as stated (covering `get_fxsph_profile`) is false. -/
theorem C6_fxsph_returns_nan_counterexample :
    returnsNaN (runM (get_fxsph_profile ExtNaN cA [2, 3] "R")) = true := by rfl

/-- C6 (amended): when the detector-count-rate channel interpolated from
the XSPEC table is entirely NaN and `output_type = 'R'`, `get_sx_profile`
raises the configuration `ValueError` before any further work, while
`get_fxsph_profile` performs no such check and returns successfully
(silently NaN-valued, as the counterexample shows). -/
theorem C6_sx_allnan_channel_raises (E : Ext) (c : Cluster) (radius : List ℚ)
    (NR : ℚ) (n : ℕ)
    (hnan : ((E.itpl_xspec_table (c.output_dir ++ "/XSPEC_table.txt")
        ((E.get_temperature_gas_profile (E.define_safe_radius_array radius 1
          (some (NR * c.R500)) 1000)).2)).2.2).all (·.isNone) = true) :
    (runM (get_sx_profile E c radius NR n "R")).res =
      .error (.valueError "You ask for an output in ph/s/sr (i.e. including instrumental response), but the xspec table was generated without response file.") ∧
    ∃ Rp v, (runM (get_fxsph_profile E c radius "R")).res = .ok (Rp, v) := by
  constructor
  · simp [runM, get_sx_profile, Bind.bind, pure, emit, throwE, hnan]
  · simp [runM, get_fxsph_profile, Bind.bind, pure, emit, throwE]

/-- Witness for C6 at the concrete all-NaN table. -/
theorem C6_sx_allnan_channel_raises_witness :
    (runM (get_sx_profile ExtNaN cA [2, 3] 5 100 "R")).res =
      .error (.valueError "You ask for an output in ph/s/sr (i.e. including instrumental response), but the xspec table was generated without response file.") :=
  (C6_sx_allnan_channel_raises ExtNaN cA [2, 3] 5 100 rfl).1

/-- The real-valued constant `1.0 / (2.0 * np.sqrt(2 * np.log(2)))`
computed by `get_ymap`/`get_sxmap` (`FWHM2sigma` is its rational stand-in
inside the executable embedding). -/
noncomputable def FWHM2sigmaR : ℝ := 1 / (2 * Real.sqrt (2 * Real.log 2))

/-- C7: in `get_ymap` and `get_sxmap`, when `FWHM` is `None` the returned
map is not smoothed (the result does not depend on the Gaussian-filter
collaborator at all); when a `FWHM` is supplied, the result is the
truncated map convolved by the Gaussian-filter collaborator with per-axis
sigmas `FWHM2sigma * FWHM / map_reso_x` and `FWHM2sigma * FWHM /
map_reso_y`; and the conversion factor equals `FWHM / (2 sqrt(2 ln 2)) /
pixel_scale` as a real-number identity. -/
theorem C7_map_gaussian_smoothing :
    (∀ (E : Ext) (c : Cluster) (NR : ℚ) (n : ℕ) (g' : MatX → ℚ × ℚ → MatX),
      runM (get_ymap { E with gaussian_filter := g' } c none NR n) =
        runM (get_ymap E c none NR n)) ∧
    (∀ (E : Ext) (c : Cluster) (NR : ℚ) (n : ℕ) (F : ℚ),
      (runM (get_ymap E c (some F) NR n)).res =
        ((runM (get_ymap E c none NR n)).res).map
          (fun m => E.gaussian_filter m
            (FWHM2sigma * F / E.map_reso_x, FWHM2sigma * F / E.map_reso_y))) ∧
    (∀ (E : Ext) (c : Cluster) (NR : ℚ) (n : ℕ) (g' : MatX → ℚ × ℚ → MatX),
      runM (get_sxmap { E with gaussian_filter := g' } c none NR n "S") =
        runM (get_sxmap E c none NR n "S")) ∧
    (∀ (E : Ext) (c : Cluster) (NR : ℚ) (n : ℕ) (F : ℚ),
      (runM (get_sxmap E c (some F) NR n "S")).res =
        ((runM (get_sxmap E c none NR n "S")).res).map
          (fun m => E.gaussian_filter m
            (FWHM2sigma * F / E.map_reso_x, FWHM2sigma * F / E.map_reso_y))) ∧
    (∀ F reso : ℝ, FWHM2sigmaR * F / reso =
      F / (2 * Real.sqrt (2 * Real.log 2)) / reso) := by
  refine ⟨?_, ?_, ?_, ?_, ?_⟩
  · intro E c NR n g'
    simp [runM, get_ymap, get_y_compton_profile, np_logspace, Bind.bind, emit, pure]
  · intro E c NR n F
    simp [runM, get_ymap, get_y_compton_profile, np_logspace, Bind.bind, emit, pure,
      Except.map]
  · intro E c NR n g'
    simp [runM, get_sxmap, get_sx_profile, np_logspace, Bind.bind, emit, pure, throwE]
  · intro E c NR n F
    simp [runM, get_sxmap, get_sx_profile, np_logspace, Bind.bind, emit, pure, throwE,
      Except.map]
  · intro F reso
    rw [FWHM2sigmaR]
    ring

/-- C8: in `get_gamma_map`, `get_neutrino_map`, `get_ic_map` and
`get_synchrotron_map`, a field of view whose minimum and maximum angular
distances from the cluster both exceed 10 degrees only emits the advisory
warning: the computation proceeds (under well-formed grid bounds) to build
and return the map from the radius bounds derived from those distances —
the condition never raises. -/
theorem C8_offset_fov_warns_and_proceeds
    (E : Ext) (c : Cluster) (EminO EmaxO Rmin_losO RminO RmaxO : Option ℚ)
    (NR freq0 : ℚ) (ed : Bool) (flavor : String)
    (hw : 10 < matMin E.dist_map ∧ 10 < matMax E.dist_map)
    (hr : ¬(matMin E.dist_map * np_pi / 180 * c.D_ang ≤ 0 ∨
        matMax E.dist_map * np_pi / 180 * c.D_ang ≤
          matMin E.dist_map * np_pi / 180 * c.D_ang))
    (h1 : eng_grid_ok c EminO EmaxO)
    (h2 : prof_r3d_ok c Rmin_losO NR
      [matMin E.dist_map * np_pi / 180 * c.D_ang,
        matMax E.dist_map * np_pi / 180 * c.D_ang])
    (h3 : los_grid_ok c Rmin_losO NR) :
    (((runM (get_gamma_map E c EminO EmaxO Rmin_losO NR RminO RmaxO ed false)).res).isOk
        = true ∧
      .warned ∈ (runM (get_gamma_map E c EminO EmaxO Rmin_losO NR RminO RmaxO
        ed false)).trace) ∧
    (((runM (get_neutrino_map E c EminO EmaxO Rmin_losO NR RminO RmaxO ed false
        flavor)).res).isOk = true ∧
      .warned ∈ (runM (get_neutrino_map E c EminO EmaxO Rmin_losO NR RminO RmaxO
        ed false flavor)).trace) ∧
    (((runM (get_ic_map E c EminO EmaxO Rmin_losO NR RminO RmaxO ed false)).res).isOk
        = true ∧
      .warned ∈ (runM (get_ic_map E c EminO EmaxO Rmin_losO NR RminO RmaxO
        ed false)).trace) ∧
    (((runM (get_synchrotron_map E c freq0 Rmin_losO NR RminO RmaxO false)).res).isOk
        = true ∧
      .warned ∈ (runM (get_synchrotron_map E c freq0 Rmin_losO NR RminO
        RmaxO false)).trace) := by
  refine ⟨⟨?_, ?_⟩, ⟨?_, ?_⟩, ⟨?_, ?_⟩, ⟨?_, ?_⟩⟩ <;>
  · by_cases hEBL : c.EBL_model = "none" <;>
    simp [runM, get_gamma_map, get_gamma_profile, get_neutrino_map,
      get_neutrino_profile, get_ic_map, get_ic_profile, get_synchrotron_map,
      get_synchrotron_profile, Bind.bind, pure, emit, hw.1, hw.2,
      sampling_array_ok _ hr, sampling_array_ok _ h1, sampling_array_ok _ h2,
      sampling_array_ok _ h3, callRate_gamma_run, callRateNeutrino_run,
      callRate_ic_run, callRate_sync_run, energy_integration_2d,
      los_integration_1dfunc, hEBL, Except.isOk, Except.toBool]

/-- `ExtA` with a field of view far offset from the cluster: every pixel
is more than 10 degrees away. -/
def ExtFar : Ext := { ExtA with dist_map := [[11, 12]] }

/-- A cluster whose angular diameter distance makes the degree-to-kpc
conversion exact, with Pythagorean-triple radii. -/
def cM : Cluster := { cA with Rmin := 2, R500 := 13, D_ang := 180 / np_pi }

/-- `cM` with a truncation radius between the two query radii `11` and
`12`, so that exactly the outer one is truncated. -/
def cT : Cluster := { cM with R_truncation := some (23 / 2) }

/-- Witness for C8 at a concrete far-offset field of view. -/
theorem C8_offset_fov_warns_and_proceeds_witness :
    ((runM (get_gamma_map ExtFar cM none none none 5 none none false
      false)).res).isOk = true ∧
    .warned ∈ (runM (get_gamma_map ExtFar cM none none none 5 none none false
      false)).trace :=
  (C8_offset_fov_warns_and_proceeds ExtFar cM none none none none none 5 1 false "all"
    (by norm_num [ExtFar, ExtA, matMin, matMax, listMin, listMax, min_def, max_def])
    (by norm_num [ExtFar, ExtA, cM, cA, matMin, matMax, listMin, listMax, min_def,
      max_def, np_pi])
    (by norm_num [cM, cA])
    (by norm_num [ExtFar, ExtA, cM, cA, matMin, matMax, listMin, listMax, min_def,
      max_def, np_pi, sqrtq_125, sqrtq_4369])
    (by norm_num [cM, cA])).1

/-- C10: `get_ymap` and `get_sxmap` guard the lower bound of their
logarithmic radius grid — when the minimum angular distance over the map is
exactly `0` it is replaced by `1e-4` degrees — and the bound they pass is
strictly positive whenever the distance map is nonnegative and `D_ang` is
positive; `get_gamma_map`, `get_neutrino_map`, `get_ic_map` and
`get_synchrotron_map` have no such guard: with a pixel at the cluster
centre (`matMin dist_map = 0`) the raw value `0` is passed as the lower
grid bound. -/
theorem C10_map_grid_lower_bound :
    (∀ (E : Ext) (c : Cluster) (FWHM : Option ℚ) (NR : ℚ) (n : ℕ),
      firstGrid (runM (get_ymap E c FWHM NR n)).trace =
        some ((if matMin E.dist_map = 0 then 1e-4 else matMin E.dist_map) *
            np_pi / 180 * c.D_ang,
          matMax E.dist_map * np_pi / 180 * c.D_ang)) ∧
    (∀ (E : Ext) (c : Cluster) (FWHM : Option ℚ) (NR : ℚ) (n : ℕ),
      firstGrid (runM (get_sxmap E c FWHM NR n "S")).trace =
        some ((if matMin E.dist_map = 0 then 1e-4 else matMin E.dist_map) *
            np_pi / 180 * c.D_ang,
          matMax E.dist_map * np_pi / 180 * c.D_ang)) ∧
    (∀ (E : Ext) (c : Cluster),
      0 ≤ matMin E.dist_map → 0 < c.D_ang →
      0 < (if matMin E.dist_map = 0 then 1e-4 else matMin E.dist_map) *
        np_pi / 180 * c.D_ang) ∧
    (∀ (E : Ext) (c : Cluster) (EminO EmaxO Rmin_losO RminO RmaxO : Option ℚ)
      (NR : ℚ) (ed Nz : Bool), matMin E.dist_map = 0 →
      firstGrid (runM (get_gamma_map E c EminO EmaxO Rmin_losO NR RminO RmaxO
        ed Nz)).trace = some (0, matMax E.dist_map * np_pi / 180 * c.D_ang)) ∧
    (∀ (E : Ext) (c : Cluster) (EminO EmaxO Rmin_losO RminO RmaxO : Option ℚ)
      (NR : ℚ) (ed Nz : Bool) (flavor : String), matMin E.dist_map = 0 →
      firstGrid (runM (get_neutrino_map E c EminO EmaxO Rmin_losO NR RminO RmaxO
        ed Nz flavor)).trace = some (0, matMax E.dist_map * np_pi / 180 * c.D_ang)) ∧
    (∀ (E : Ext) (c : Cluster) (EminO EmaxO Rmin_losO RminO RmaxO : Option ℚ)
      (NR : ℚ) (ed Nz : Bool), matMin E.dist_map = 0 →
      firstGrid (runM (get_ic_map E c EminO EmaxO Rmin_losO NR RminO RmaxO
        ed Nz)).trace = some (0, matMax E.dist_map * np_pi / 180 * c.D_ang)) ∧
    (∀ (E : Ext) (c : Cluster) (Rmin_losO RminO RmaxO : Option ℚ)
      (NR freq0 : ℚ) (Nz : Bool), matMin E.dist_map = 0 →
      firstGrid (runM (get_synchrotron_map E c freq0 Rmin_losO NR RminO RmaxO
        Nz)).trace = some (0, matMax E.dist_map * np_pi / 180 * c.D_ang)) := by
  have hlt : ¬((10 : ℚ) < 0) := by norm_num
  have hz : ((0 : ℚ) ≤ 0 ∨ matMax ([] : Mat) * np_pi ≤ 0) := Or.inl le_rfl
  refine ⟨?_, ?_, ?_, ?_, ?_, ?_, ?_⟩
  · intro E c FWHM NR n
    cases FWHM <;>
      simp [runM, get_ymap, get_y_compton_profile, np_logspace, Bind.bind, emit, pure]
  · intro E c FWHM NR n
    cases FWHM <;>
      simp [runM, get_sxmap, get_sx_profile, np_logspace, Bind.bind, emit, pure, throwE]
  · intro E c hmin hD
    by_cases h0 : matMin E.dist_map = 0
    · rw [if_pos h0]
      exact mul_pos (div_pos (mul_pos (by norm_num) np_pi_pos) (by norm_num)) hD
    · rw [if_neg h0]
      have hp : 0 < matMin E.dist_map := lt_of_le_of_ne hmin (Ne.symm h0)
      exact mul_pos (div_pos (mul_pos hp np_pi_pos) (by norm_num)) hD
  · intro E c EminO EmaxO Rmin_losO RminO RmaxO NR ed Nz h0
    simp [runM, get_gamma_map, Bind.bind, emit, pure, throwE, h0, hlt,
      sampling_array_err _ (Or.inl le_rfl)]
  · intro E c EminO EmaxO Rmin_losO RminO RmaxO NR ed Nz flavor h0
    simp [runM, get_neutrino_map, Bind.bind, emit, pure, throwE, h0, hlt,
      sampling_array_err _ (Or.inl le_rfl)]
  · intro E c EminO EmaxO Rmin_losO RminO RmaxO NR ed Nz h0
    simp [runM, get_ic_map, Bind.bind, emit, pure, throwE, h0, hlt,
      sampling_array_err _ (Or.inl le_rfl)]
  · intro E c Rmin_losO RminO RmaxO NR freq0 Nz h0
    simp [runM, get_synchrotron_map, Bind.bind, emit, pure, throwE, h0, hlt,
      sampling_array_err _ (Or.inl le_rfl)]

/-- Witness for C10's positivity part at a concrete map with a central
pixel. -/
theorem C10_map_grid_lower_bound_witness :
    (0 : ℚ) ≤ matMin ExtA.dist_map ∧ (0 : ℚ) < cA.D_ang ∧
    0 < (if matMin ExtA.dist_map = 0 then 1e-4 else matMin ExtA.dist_map) *
      np_pi / 180 * cA.D_ang :=
  ⟨by norm_num [ExtA, matMin, listMin, min_def],
    by norm_num [cA],
    C10_map_grid_lower_bound.2.2.1 ExtA cA
      (by norm_num [ExtA, matMin, listMin, min_def]) (by norm_num [cA])⟩

/-- C2 (amended): EBL absorption is applied exactly once, with no energy
integration preceding it, in the gamma-ray operations (spectrum, profile,
and all three shape branches of the flux), in the inverse-Compton spectrum,
profile, and the scalar and `Emin`-array branches of the IC flux, and in
the radius-array branch of `get_neutrino_flux`; the absorbed gamma spectrum
is the unabsorbed (`EBL_model = 'none'`) spectrum multiplied pointwise in
energy by the absorption factor.  The radius-array branch of `get_ic_flux`
applies no absorption whatever the model: it fails on the `get_rate_ic_ray`
attribute lookup before its absorption block runs.  All other neutrino
paths (spectrum, profile, scalar and `Emin`-array flux) and all
synchrotron operations (spectrum, profile, and both shape branches of the
flux) never apply an absorption factor regardless of the configured model,
and with `EBL_model = 'none'` no absorption is applied anywhere.  Trace
statements are under well-formed sampling grids. -/
theorem C2_ebl_absorption_per_operation
    (E : Ext) (c : Cluster) (energy radius es Rmaxs : List ℚ)
    (EminO EmaxO RminO RmaxO Rmin_losO : Option ℚ)
    (NR freq0 Emin0 Emax0 Rmin0 R0 Rlos0 : ℚ) (ed : Bool) (flavor : String)
    (hEBL : c.EBL_model ≠ "none")
    (h1 : eng_grid_ok c EminO EmaxO)
    (h2 : prof_r3d_ok c Rmin_losO NR radius)
    (h3 : los_grid_ok c Rmin_losO NR)
    (h4 : rad_grid_ok c RminO RmaxO)
    (hfE : ¬(Emin0 ≤ 0 ∨ Emax0 ≤ Emin0))
    (hfR : ¬(Rmin0 ≤ 0 ∨ R0 ≤ Rmin0))
    (hfes : ¬(listMin es ≤ 0 ∨ Emax0 ≤ listMin es))
    (hfRs : ¬(Rmin0 ≤ 0 ∨ listMax Rmaxs ≤ Rmin0))
    (hflos : ¬(Rlos0 ≤ 0 ∨ NR * c.R500 ≤ Rlos0)) :
    absorbOnceFirst (runM (get_gamma_spectrum E c energy RminO RmaxO "spherical"
      Rmin_losO NR)).trace = true ∧
    absorbOnceFirst (runM (get_gamma_profile E c radius EminO EmaxO ed
      Rmin_losO NR)).trace = true ∧
    absorbOnceFirst (runM (get_gamma_flux E c (some (.scalar Emin0)) (some Emax0) ed
      (some Rmin0) (some (.scalar R0)) "spherical" (some Rlos0) NR)).trace = true ∧
    absorbOnceFirst (runM (get_gamma_flux E c (some (.array es)) (some Emax0) ed
      (some Rmin0) (some (.scalar R0)) "spherical" (some Rlos0) NR)).trace = true ∧
    absorbOnceFirst (runM (get_gamma_flux E c (some (.scalar Emin0)) (some Emax0) ed
      (some Rmin0) (some (.array Rmaxs)) "spherical" (some Rlos0) NR)).trace = true ∧
    absorbOnceFirst (runM (get_ic_spectrum E c energy RminO RmaxO "spherical"
      Rmin_losO NR)).trace = true ∧
    absorbOnceFirst (runM (get_ic_profile E c radius EminO EmaxO ed
      Rmin_losO NR)).trace = true ∧
    absorbOnceFirst (runM (get_ic_flux E c (some (.scalar Emin0)) (some Emax0) ed
      (some Rmin0) (some (.scalar R0)) "spherical" (some Rlos0) NR)).trace = true ∧
    absorbOnceFirst (runM (get_ic_flux E c (some (.array es)) (some Emax0) ed
      (some Rmin0) (some (.scalar R0)) "spherical" (some Rlos0) NR)).trace = true ∧
    absorbOnceFirst (runM (get_neutrino_flux E c (some (.scalar Emin0)) (some Emax0) ed
      (some Rmin0) (some (.array Rmaxs)) "spherical" (some Rlos0) NR flavor)).trace
      = true ∧
    (runM (get_gamma_spectrum E c energy RminO RmaxO "spherical" Rmin_losO NR)).res =
      ((runM (get_gamma_spectrum E { c with EBL_model := "none" } energy RminO RmaxO
          "spherical" Rmin_losO NR)).res).map
        (fun p => (p.1, List.zipWith (· * ·) p.2
          (E.get_ebl_absorb energy c.redshift c.EBL_model))) ∧
    absorbCount (runM (get_neutrino_spectrum E c energy RminO RmaxO "spherical" NR
      Rmin_losO flavor)).trace = 0 ∧
    absorbCount (runM (get_neutrino_profile E c radius EminO EmaxO ed Rmin_losO NR
      flavor)).trace = 0 ∧
    absorbCount (runM (get_neutrino_flux E c (some (.scalar Emin0)) (some Emax0) ed
      (some Rmin0) (some (.scalar R0)) "spherical" (some Rlos0) NR flavor)).trace
      = 0 ∧
    absorbCount (runM (get_neutrino_flux E c (some (.array es)) (some Emax0) ed
      (some Rmin0) (some (.scalar R0)) "spherical" (some Rlos0) NR flavor)).trace
      = 0 ∧
    absorbCount (runM (get_synchrotron_spectrum E c energy RminO RmaxO "spherical"
      Rmin_losO NR)).trace = 0 ∧
    absorbCount (runM (get_synchrotron_profile E c radius freq0 Rmin_losO NR)).trace
      = 0 ∧
    absorbCount (runM (get_ic_flux E c (some (.scalar Emin0)) (some Emax0) ed
      (some Rmin0) (some (.array Rmaxs)) "spherical" (some Rlos0) NR)).trace = 0 ∧
    absorbCount (runM (get_synchrotron_flux E c freq0 (some Rmin0)
      (some (.scalar R0)) "spherical" (some Rlos0) NR)).trace = 0 ∧
    absorbCount (runM (get_synchrotron_flux E c freq0 (some Rmin0)
      (some (.array Rmaxs)) "spherical" (some Rlos0) NR)).trace = 0 ∧
    absorbCount (runM (get_gamma_spectrum E { c with EBL_model := "none" } energy
      RminO RmaxO "spherical" Rmin_losO NR)).trace = 0 ∧
    absorbCount (runM (get_gamma_profile E { c with EBL_model := "none" } radius
      EminO EmaxO ed Rmin_losO NR)).trace = 0 := by
  refine ⟨?_, ?_, ?_, ?_, ?_, ?_, ?_, ?_, ?_, ?_, ?_, ?_, ?_, ?_, ?_, ?_, ?_, ?_,
    ?_, ?_, ?_, ?_⟩
  · simp only [runM, get_gamma_spectrum]
    simp only [contains_sph]
    simp [Bind.bind, pure, emit, sampling_array_ok _ h4, callRate_gamma_run,
      spherical_integration_2d, hEBL]
  · simp [runM, get_gamma_profile, Bind.bind, pure, emit, sampling_array_ok _ h1,
      sampling_array_ok _ h2, sampling_array_ok _ h3, callRate_gamma_run,
      energy_integration_2d, los_integration_1dfunc, hEBL]
  · simp only [runM, get_gamma_flux, get_gamma_spectrum]
    simp only [contains_sph]
    simp [Bind.bind, pure, emit, sampling_array_ok _ hfE, sampling_array_ok _ hfR,
      callRate_gamma_run, spherical_integration_2d, energy_integration, hEBL]
  · simp only [runM, get_gamma_flux, get_gamma_spectrum]
    simp only [contains_sph]
    simp [Bind.bind, pure, emit, sampling_array_ok _ hfes, sampling_array_ok _ hfR,
      callRate_gamma_run, spherical_integration_2d, hEBL]
    split <;> rename_i a t' heq <;>
    · have htr := congrArg MRes.trace heq
      simp only at htr
      rw [← htr]
      apply flux_Emin_loop_absorbOnce
      simp
  · simp only [runM, get_gamma_flux]
    simp only [contains_sph]
    simp [Bind.bind, pure, emit, sampling_array_ok _ hfE, sampling_array_ok _ hfRs,
      sampling_array_ok _ hflos, callRate_gamma_run, energy_integration_2d, hEBL]
    split <;> rename_i a t' heq <;>
    · have htr := congrArg MRes.trace heq
      simp only at htr
      rw [← htr]
      apply flux_Rsph_loop_absorbOnce
      simp
  · simp only [runM, get_ic_spectrum]
    simp only [contains_sph]
    simp [Bind.bind, pure, emit, sampling_array_ok _ h4, callRate_ic_run,
      spherical_integration_2d, hEBL]
  · simp [runM, get_ic_profile, Bind.bind, pure, emit, sampling_array_ok _ h1,
      sampling_array_ok _ h2, sampling_array_ok _ h3, callRate_ic_run,
      energy_integration_2d, los_integration_1dfunc, hEBL]
  · simp only [runM, get_ic_flux, get_ic_spectrum]
    simp only [contains_sph]
    simp [Bind.bind, pure, emit, sampling_array_ok _ hfE, sampling_array_ok _ hfR,
      callRate_ic_run, spherical_integration_2d, energy_integration, hEBL]
  · simp only [runM, get_ic_flux, get_ic_spectrum]
    simp only [contains_sph]
    simp [Bind.bind, pure, emit, sampling_array_ok _ hfes, sampling_array_ok _ hfR,
      callRate_ic_run, spherical_integration_2d, hEBL]
    split <;> rename_i a t' heq <;>
    · have htr := congrArg MRes.trace heq
      simp only at htr
      rw [← htr]
      apply flux_Emin_loop_absorbOnce
      simp
  · simp only [runM, get_neutrino_flux]
    simp only [contains_sph]
    simp [Bind.bind, pure, emit, sampling_array_ok _ hfE, sampling_array_ok _ hfRs,
      sampling_array_ok _ hflos, callRateNeutrino_run, energy_integration_2d, hEBL]
    split <;> rename_i a t' heq <;>
    · have htr := congrArg MRes.trace heq
      simp only at htr
      rw [← htr]
      apply flux_Rsph_loop_absorbOnce
      simp
  · simp only [runM, get_gamma_spectrum]
    simp only [contains_sph]
    simp [Bind.bind, pure, emit, sampling_array_ok _ h4, callRate_gamma_run,
      spherical_integration_2d, hEBL, Except.map]
  · exact neutrino_spectrum_no_absorb E c energy RminO RmaxO NR Rmin_losO flavor h4
  · simp [runM, get_neutrino_profile, Bind.bind, pure, emit, sampling_array_ok _ h1,
      sampling_array_ok _ h2, sampling_array_ok _ h3, callRateNeutrino_run,
      energy_integration_2d, los_integration_1dfunc]
  · simp only [runM, get_neutrino_flux, get_neutrino_spectrum]
    simp only [contains_sph]
    simp [Bind.bind, pure, emit, sampling_array_ok _ hfE, sampling_array_ok _ hfR,
      callRateNeutrino_run, spherical_integration_2d, energy_integration]
  · simp only [runM, get_neutrino_flux, get_neutrino_spectrum]
    simp only [contains_sph]
    simp [Bind.bind, pure, emit, sampling_array_ok _ hfes, sampling_array_ok _ hfR,
      callRateNeutrino_run, spherical_integration_2d]
    split <;> rename_i a t' heq <;>
    · have htr := congrArg MRes.trace heq
      simp only at htr
      rw [← htr]
      apply flux_Emin_loop_absorbCount
      simp
  · simp only [runM, get_synchrotron_spectrum]
    simp only [contains_sph]
    simp [Bind.bind, pure, emit, sampling_array_ok _ h4, callRate_sync_run,
      spherical_integration_2d]
  · simp [runM, get_synchrotron_profile, Bind.bind, pure, emit,
      sampling_array_ok _ h2, sampling_array_ok _ h3, callRate_sync_run,
      los_integration_1dfunc]
  · simp only [runM, get_ic_flux]
    simp only [contains_sph]
    simp [Bind.bind, pure, emit, sampling_array_ok _ hfE, sampling_array_ok _ hfRs,
      sampling_array_ok _ hflos, callRate_icray_run, throwE]
  · simp only [runM, get_synchrotron_flux, get_synchrotron_spectrum]
    simp only [contains_sph]
    simp [Bind.bind, pure, emit, sampling_array_ok _ hfR, callRate_sync_run,
      spherical_integration_2d]
  · simp only [runM, get_synchrotron_flux]
    simp only [contains_sph]
    simp [Bind.bind, pure, emit, sampling_array_ok _ hfRs, sampling_array_ok _ hflos,
      callRate_sync_run]
    apply sync_Rsph_loop_absorbCount
    simp
  · simp only [runM, get_gamma_spectrum]
    simp only [contains_sph]
    simp [Bind.bind, pure, emit, sampling_array_ok _ h4, callRate_gamma_run,
      spherical_integration_2d]
  · simp [runM, get_gamma_profile, Bind.bind, pure, emit, sampling_array_ok _ h1,
      sampling_array_ok _ h2, sampling_array_ok _ h3, callRate_gamma_run,
      energy_integration_2d, los_integration_1dfunc]

/-- C2 counterexample: with the EBL model configured to `'dominguez'`
(not `'none'`), the neutrino spectrum applies no absorption factor at all —
its trace holds no absorption event — contradicting the claim that every
spectrum computation multiplies the rate by the absorption factor exactly
once. -/
theorem C2_neutrino_no_absorption_counterexample :
    cA.EBL_model ≠ "none" ∧
    absorbCount (runM (get_neutrino_spectrum ExtA cA [1, 2] (some 1) (some 1000)
      "spherical" 1 (some 1) "all")).trace = 0 :=
  ⟨by simp [cA],
    neutrino_spectrum_no_absorb ExtA cA [1, 2] (some 1) (some 1000) 1 (some 1) "all"
      (by norm_num [cA])⟩

/-- Witness for C2 at a concrete cluster with EBL model `'dominguez'` and
well-formed grids. -/
theorem C2_ebl_absorption_per_operation_witness :
    absorbOnceFirst (runM (get_gamma_spectrum ExtA cA [1, 2] (some 1) (some 1000)
      "spherical" (some 1) 1)).trace = true :=
  (C2_ebl_absorption_per_operation ExtA cA [1, 2] [3, 4] [2, 3] [500]
    (some 1) (some 100) (some 1) (some 1000) (some 1) 1 1 1 100 1 1000 1 false "all"
    (by simp [cA])
    (by norm_num [cA])
    (by norm_num [cA, listMin, listMax, min_def, max_def, sqrtq_10, sqrtq_1000016])
    (by norm_num [cA])
    (by norm_num [cA])
    (by norm_num)
    (by norm_num)
    (by norm_num [listMin, min_def])
    (by norm_num [listMax, max_def])
    (by norm_num [cA])).1

/-- C1 (amended): every profile-producing operation (`get_gamma_profile`,
`get_neutrino_profile`, `get_ic_profile`, `get_synchrotron_profile`,
`get_y_compton_profile`, `get_sx_profile`) returns exactly zero at every
projected radius strictly beyond `R_truncation`, the zeroing being applied
to the line-of-sight-projected profile before the remaining unit scalings;
the four particle maps and the unsmoothed (`FWHM = None`) SZ and X-ray maps
return exactly zero at every pixel whose angular distance strictly exceeds
`theta_truncation`.  For `get_ymap`/`get_sxmap` with a `FWHM` supplied the
Gaussian smoothing is applied after the zeroing, so the returned smoothed
map need not be zero beyond the truncation angle (see the counterexample).
Trace-free value statements; grid hypotheses make the pipelines succeed. -/
theorem C1_truncation_zeroing
    (E : Ext) (c : Cluster) (radius : List ℚ)
    (EminO EmaxO Rmin_losO RminO RmaxO : Option ℚ)
    (NR freq0 : ℚ) (n : ℕ) (ed : Bool) (flavor : String)
    (h1 : eng_grid_ok c EminO EmaxO)
    (h2 : prof_r3d_ok c Rmin_losO NR radius)
    (h3 : los_grid_ok c Rmin_losO NR)
    (hr : ¬(matMin E.dist_map * np_pi / 180 * c.D_ang ≤ 0 ∨
        matMax E.dist_map * np_pi / 180 * c.D_ang ≤
          matMin E.dist_map * np_pi / 180 * c.D_ang))
    (h2m : prof_r3d_ok c Rmin_losO NR
      [matMin E.dist_map * np_pi / 180 * c.D_ang,
        matMax E.dist_map * np_pi / 180 * c.D_ang]) :
    (∀ (i : ℕ) (ri : ℚ), radius[i]? = some ri → gtTrunc ri c.R_truncation = true →
      ((runM (get_gamma_profile E c radius EminO EmaxO ed Rmin_losO NR)).res).map
        (fun p => p.2[i]?) = .ok (some 0)) ∧
    (∀ (i : ℕ) (ri : ℚ), radius[i]? = some ri → gtTrunc ri c.R_truncation = true →
      ((runM (get_neutrino_profile E c radius EminO EmaxO ed Rmin_losO NR
        flavor)).res).map (fun p => p.2[i]?) = .ok (some 0)) ∧
    (∀ (i : ℕ) (ri : ℚ), radius[i]? = some ri → gtTrunc ri c.R_truncation = true →
      ((runM (get_ic_profile E c radius EminO EmaxO ed Rmin_losO NR)).res).map
        (fun p => p.2[i]?) = .ok (some 0)) ∧
    (∀ (i : ℕ) (ri : ℚ), radius[i]? = some ri → gtTrunc ri c.R_truncation = true →
      ((runM (get_synchrotron_profile E c radius freq0 Rmin_losO NR)).res).map
        (fun p => p.2[i]?) = .ok (some 0)) ∧
    (∀ (pr : List ℚ × List (Option ℚ)) (i : ℕ) (ri : ℚ) (w : Option ℚ),
      (runM (get_y_compton_profile E c radius NR n)).res = .ok pr →
      pr.1[i]? = some ri → gtTrunc ri c.R_truncation = true →
      pr.2[i]? = some w → w = some 0) ∧
    (∀ (pr : List ℚ × List (Option ℚ)) (i : ℕ) (ri : ℚ) (w : Option ℚ),
      (runM (get_sx_profile E c radius NR n "S")).res = .ok pr →
      pr.1[i]? = some ri → gtTrunc ri c.R_truncation = true →
      pr.2[i]? = some w → w = some 0) ∧
    (∀ (m : Mat) (i j : ℕ) (d w : ℚ),
      (runM (get_gamma_map E c EminO EmaxO Rmin_losO NR RminO RmaxO ed false)).res
        = .ok m →
      E.dist_map[i]?.bind (fun row => row[j]?) = some d → c.theta_truncation < d →
      m[i]?.bind (fun row => row[j]?) = some w → w = 0) ∧
    (∀ (m : Mat) (i j : ℕ) (d w : ℚ),
      (runM (get_neutrino_map E c EminO EmaxO Rmin_losO NR RminO RmaxO ed false
        flavor)).res = .ok m →
      E.dist_map[i]?.bind (fun row => row[j]?) = some d → c.theta_truncation < d →
      m[i]?.bind (fun row => row[j]?) = some w → w = 0) ∧
    (∀ (m : Mat) (i j : ℕ) (d w : ℚ),
      (runM (get_ic_map E c EminO EmaxO Rmin_losO NR RminO RmaxO ed false)).res
        = .ok m →
      E.dist_map[i]?.bind (fun row => row[j]?) = some d → c.theta_truncation < d →
      m[i]?.bind (fun row => row[j]?) = some w → w = 0) ∧
    (∀ (m : Mat) (i j : ℕ) (d w : ℚ),
      (runM (get_synchrotron_map E c freq0 Rmin_losO NR RminO RmaxO false)).res
        = .ok m →
      E.dist_map[i]?.bind (fun row => row[j]?) = some d → c.theta_truncation < d →
      m[i]?.bind (fun row => row[j]?) = some w → w = 0) ∧
    (∀ (m : MatX) (i j : ℕ) (d : ℚ) (w : Option ℚ),
      (runM (get_ymap E c none NR n)).res = .ok m →
      E.dist_map[i]?.bind (fun row => row[j]?) = some d → c.theta_truncation < d →
      m[i]?.bind (fun row => row[j]?) = some w → w = some 0) ∧
    (∀ (m : MatX) (i j : ℕ) (d : ℚ) (w : Option ℚ),
      (runM (get_sxmap E c none NR n "S")).res = .ok m →
      E.dist_map[i]?.bind (fun row => row[j]?) = some d → c.theta_truncation < d →
      m[i]?.bind (fun row => row[j]?) = some w → w = some 0) := by
  refine ⟨?_, ?_, ?_, ?_, ?_, ?_, ?_, ?_, ?_, ?_, ?_, ?_⟩
  · intro i ri hri ht
    by_cases hEBL : c.EBL_model = "none" <;>
      simp [runM, get_gamma_profile, Bind.bind, pure, emit, Except.map,
        sampling_array_ok _ h1, sampling_array_ok _ h2, sampling_array_ok _ h3,
        callRate_gamma_run, energy_integration_2d, los_integration_1dfunc, hEBL,
        List.getElem?_map, truncate_profile_map_getElem _ _ _ i ri hri ht]
  · intro i ri hri ht
    simp [runM, get_neutrino_profile, Bind.bind, pure, emit, Except.map,
      sampling_array_ok _ h1, sampling_array_ok _ h2, sampling_array_ok _ h3,
      callRateNeutrino_run, energy_integration_2d, los_integration_1dfunc,
      List.getElem?_map, truncate_profile_map_getElem _ _ _ i ri hri ht]
  · intro i ri hri ht
    by_cases hEBL : c.EBL_model = "none" <;>
      simp [runM, get_ic_profile, Bind.bind, pure, emit, Except.map,
        sampling_array_ok _ h1, sampling_array_ok _ h2, sampling_array_ok _ h3,
        callRate_ic_run, energy_integration_2d, los_integration_1dfunc, hEBL,
        List.getElem?_map, truncate_profile_map_getElem _ _ _ i ri hri ht]
  · intro i ri hri ht
    simp [runM, get_synchrotron_profile, Bind.bind, pure, emit, Except.map,
      sampling_array_ok _ h2, sampling_array_ok _ h3,
      callRate_sync_run, los_integration_1dfunc,
      List.getElem?_map, truncate_profile_map_getElem _ _ _ i ri hri ht]
  · intro pr i ri w hres hri ht hw
    simp [runM, get_y_compton_profile, pure] at hres
    subst hres
    exact truncate_profile_x_getElem _ _ _ i ri w hri ht hw
  · intro pr i ri w hres hri ht hw
    simp [runM, get_sx_profile, Bind.bind, pure, throwE] at hres
    subst hres
    simp [List.getElem?_map] at hw
    obtain ⟨w', hw', rfl⟩ := hw
    have h0 := truncate_profile_x_getElem _ _ _ i ri w' hri ht hw'
    subst h0
    simp
  · intro m i j d w hres hd ht hw
    by_cases hEBL : c.EBL_model = "none" <;>
    by_cases h10 : (matMin E.dist_map > 10 ∧ matMax E.dist_map > 10) <;>
      simp [runM, get_gamma_map, get_gamma_profile, Bind.bind, pure, emit, hEBL, h10,
        sampling_array_ok _ hr, sampling_array_ok _ h1, sampling_array_ok _ h2m,
        sampling_array_ok _ h3, callRate_gamma_run, energy_integration_2d,
        los_integration_1dfunc] at hres <;>
      · subst hres
        exact truncate_map_getElem _ _ _ i j d w hd ht hw
  · intro m i j d w hres hd ht hw
    by_cases hEBL : c.EBL_model = "none" <;>
    by_cases h10 : (matMin E.dist_map > 10 ∧ matMax E.dist_map > 10) <;>
      simp [runM, get_neutrino_map, get_neutrino_profile, Bind.bind, pure, emit, hEBL,
        h10, sampling_array_ok _ hr, sampling_array_ok _ h1, sampling_array_ok _ h2m,
        sampling_array_ok _ h3, callRateNeutrino_run, energy_integration_2d,
        los_integration_1dfunc] at hres <;>
      · subst hres
        exact truncate_map_getElem _ _ _ i j d w hd ht hw
  · intro m i j d w hres hd ht hw
    by_cases hEBL : c.EBL_model = "none" <;>
    by_cases h10 : (matMin E.dist_map > 10 ∧ matMax E.dist_map > 10) <;>
      simp [runM, get_ic_map, get_ic_profile, Bind.bind, pure, emit, hEBL, h10,
        sampling_array_ok _ hr, sampling_array_ok _ h1, sampling_array_ok _ h2m,
        sampling_array_ok _ h3, callRate_ic_run, energy_integration_2d,
        los_integration_1dfunc] at hres <;>
      · subst hres
        exact truncate_map_getElem _ _ _ i j d w hd ht hw
  · intro m i j d w hres hd ht hw
    by_cases h10 : (matMin E.dist_map > 10 ∧ matMax E.dist_map > 10) <;>
      simp [runM, get_synchrotron_map, get_synchrotron_profile, Bind.bind, pure, emit,
        h10, sampling_array_ok _ hr, sampling_array_ok _ h2m, sampling_array_ok _ h3,
        callRate_sync_run, los_integration_1dfunc] at hres <;>
      · subst hres
        exact truncate_map_getElem _ _ _ i j d w hd ht hw
  · intro m i j d w hres hd ht hw
    simp [runM, get_ymap, get_y_compton_profile, np_logspace, Bind.bind, emit,
      pure] at hres
    subst hres
    exact truncate_map_x_getElem _ _ _ i j d w hd ht hw
  · intro m i j d w hres hd ht hw
    simp [runM, get_sxmap, get_sx_profile, np_logspace, Bind.bind, emit, pure,
      throwE] at hres
    subst hres
    exact truncate_map_x_getElem _ _ _ i j d w hd ht hw

/-- C1 counterexample: `get_ymap` with a `FWHM` supplied smooths the map
after the truncation zeroing, so the returned value at the pixel whose
angular distance (`6` degrees) exceeds `theta_truncation` (`5` degrees) is
`1/4000`, not zero. -/
theorem C1_smoothed_map_nonzero_beyond_truncation :
    (ExtA.dist_map[0]?.bind (fun row => row[1]?)) = some 6 ∧
    cY.theta_truncation < 6 ∧
    ((runM (get_ymap ExtA cY (some 1) 1 100)).res).map
      (fun m => m[0]?.bind (fun row => row[1]?)) = .ok (some (some (1 / 4000))) ∧
    ¬((1 : ℚ) / 4000 = 0) := by
  refine ⟨rfl, by norm_num [cY, cA], ?_, by norm_num⟩
  norm_num [runM, get_ymap, get_y_compton_profile, np_logspace, Bind.bind, emit, pure,
    Except.map, ExtA, cY, cA, matMin, matMax, listMin, listMax, min_def, max_def,
    truncate_map_x, truncate_profile_x, gtTrunc, gaussStandinX, smooth3,
    sigma_T_mec2, np_pi, FWHM2sigma]
  norm_num [List.replicate]

/-- Witness for C1 at a concrete far-offset map geometry with the
truncation radius between the two query radii. -/
theorem C1_truncation_zeroing_witness :
    ((runM (get_gamma_profile ExtFar cT [11, 12] none none false none 5)).res).map
      (fun p => p.2[1]?) = .ok (some 0) :=
  (C1_truncation_zeroing ExtFar cT [11, 12] none none none none none 5 1 100 false
    "all"
    (by norm_num [cT, cM, cA])
    (by norm_num [cT, cM, cA, listMin, listMax, min_def, max_def,
      sqrtq_125, sqrtq_4369])
    (by norm_num [cT, cM, cA])
    (by norm_num [ExtFar, ExtA, cT, cM, cA, matMin, matMax, listMin, listMax,
      min_def, max_def, np_pi])
    (by norm_num [ExtFar, ExtA, cT, cM, cA, matMin, matMax, listMin, listMax,
      min_def, max_def, np_pi, sqrtq_125, sqrtq_4369])).1
    1 12 rfl (by norm_num [cT, cM, cA, gtTrunc])

end ClusterModelObs
